import Mathlib

/-! # golang-microservice-example: the movie CRUD path

A shallow embedding of `api/model/movie_model.go`, `api/util/api_error.go`,
`api/movie/movie_service.go`, `api/movie/movie_controller.go` and
`api/movie/movie_router.go`.

Go values are modelled as follows.

* `int` is `Int` (no arithmetic is performed on identifiers, so no wrap-around
  can occur); `strconv.IntSize` is taken to be 64.
* A Go `error` is a value of the inductive type `error`; a nil error is `none`.
* A function returning `(T, error)` returns a pair `T × Option error`, so that
  the value returned next to a non-nil error stays visible.
* A `[]model.Movie` is an `Option (List Movie)`: `none` is the nil slice,
  `some []` an empty, non-nil slice.
* Stateful code passes its state explicitly: the database behind `*sql.DB`
  has a state of some type `σ`, and every call returns the next state.
-/

set_option autoImplicit false

/-! ## Errors -/

/-- The Go `error` values that occur in the program. -/
inductive error where
  /-- The value of `errors.New(text)`; library errors known only by their text
  are values of this shape too. -/
  | errorString (text : String)
  /-- The value `&strconv.NumError{Func, Num, Err}`; `Err` is `strconv.ErrSyntax` or
  `strconv.ErrRange`, kept by its text. -/
  | NumError (Func : String) (Num : String) (Err : String)
  /-- The value `&util.ExistingRecordError{Identification}`. -/
  | ExistingRecordError (Identification : String)
  /-- The value `&util.NotExistingRecordError{Identification}`. -/
  | NotExistingRecordError (Identification : String)
  deriving DecidableEq, Repr

/-- The function `errors.New`. -/
def errors.New (text : String) : error := error.errorString text

/-- The method `(e *ExistingRecordError) Error()` of `api/util/api_error.go`. -/
def ExistingRecordError.Error (Identification : String) : String :=
  "A record by [" ++ Identification ++ "] already exists in the database!"

/-- The method `(e *NotExistingRecordError) Error()` of `api/util/api_error.go`. -/
def NotExistingRecordError.Error (Identification : String) : String :=
  "A record by [" ++ Identification ++ "] does not exist in the database!"

/-! ## The entity and its validator (`api/model/movie_model.go`) -/

/-- The struct `model.Movie`. -/
structure Movie where
  ID : Int
  Name : String
  deriving DecidableEq, Repr

/-- The method `(m *Movie) Validate()`. -/
def Movie.Validate (m : Movie) : Option error :=
  if m.Name = "" then
    some (errors.New "Name is missing")
  else
    none

/-! ## The database handle (`database/sql`)

`database/sql`, the driver and the database server are outside the repository. The
service sees them through three methods of `*sql.DB`: `Query`, `QueryRow` and `Exec`.
A handle is modelled by the answers it gives, over a state `σ` of the database. -/

/-- A value bound to a placeholder `$n` of a statement. -/
inductive driver.Value where
  | int (i : Int)
  | string (s : String)
  deriving DecidableEq, Repr

/-- A row delivered by `Rows.Next`, as `Scan(&m.ID, &m.Name)` reads it: the Movie whose
two fields the columns are scanned into, or the error `Scan` returns for that row. -/
abbrev sql.ScannedRow := Except error Movie

/-- The handle `*sql.DB`. `Query` answers with an error or with the rows that
`Rows.Next` delivers, in order; `Exec` answers with an error or none (the
`sql.Result` is discarded by every caller). Both may change the state. -/
structure sql.DB (σ : Type) where
  Query : String → List driver.Value → σ → Except error (List sql.ScannedRow) × σ
  Exec : String → List driver.Value → σ → Option error × σ

/-- The value `sql.ErrNoRows`. -/
def sql.ErrNoRows : error := errors.New "sql: no rows in result set"

/-- The struct `*sql.Row` returned by `QueryRow`: the rows of the query, or its
deferred error. -/
structure sql.Row where
  rows : List sql.ScannedRow
  err : Option error

/-- The method `(db *DB) QueryRow`: runs `Query` and defers its error to `Scan`. -/
def sql.DB.QueryRow {σ : Type} (db : sql.DB σ) (query : String) (args : List driver.Value)
    (st : σ) : sql.Row × σ :=
  match db.Query query args st with
  | (.error err, st1) => ({ rows := [], err := some err }, st1)
  | (.ok rows, st1) => ({ rows := rows, err := none }, st1)

/-- The method `(r *Row) Scan(&m.ID, &m.Name)`: the deferred error if there is one,
`sql.ErrNoRows` if the query delivered no row, otherwise the scan of the first row. -/
def sql.Row.Scan (r : sql.Row) : Except error Movie :=
  match r.err with
  | some err => .error err
  | none =>
    match r.rows with
    | [] => .error sql.ErrNoRows
    | row :: _ => row

/-- The verb `%v` of `fmt.Sprintf` applied to an `int`: its decimal form. -/
def fmt.int (i : Int) : String := toString i

/-! ## The persistence service (`api/movie/movie_service.go`) -/

/-- The struct `service`. -/
structure service (σ : Type) where
  db : sql.DB σ

/-- The interface `MovieService`. -/
structure MovieService (σ : Type) where
  GetMovies : σ → (Option (List Movie) × Option error) × σ
  GetMovie : Int → σ → (Movie × Option error) × σ
  CreateMovie : Movie → σ → Option error × σ
  UpdateMovie : Int → Movie → σ → Option error × σ
  DeleteMovie : Int → σ → Option error × σ

/-- The loop `for qr.Next() { ... }` of `GetMovies`: `result` holds the Movies
appended so far. -/
def service.GetMovies.loop : List sql.ScannedRow → List Movie → Option (List Movie) × Option error
  | [], result => (some result, none)
  | .error err :: _, _ => (some [], some err)
  | .ok m :: qr, result => service.GetMovies.loop qr (result ++ [m])

/-- The method `(s *service) GetMovies()`. -/
def service.GetMovies {σ : Type} (s : service σ) (st : σ) :
    (Option (List Movie) × Option error) × σ :=
  let q := "SELECT * FROM movies"
  match s.db.Query q [] st with
  | (.error err, st1) => ((some [], some err), st1)
  | (.ok qr, st1) => (service.GetMovies.loop qr [], st1)

/-- The method `(s *service) GetMovie(id)`. -/
def service.GetMovie {σ : Type} (s : service σ) (id : Int) (st : σ) :
    (Movie × Option error) × σ :=
  let q := "SELECT * FROM movies WHERE id = $1"
  let (qr, st1) := s.db.QueryRow q [.int id] st
  match qr.Scan with
  | .error err => ((Movie.mk 0 "", some err), st1)
  | .ok result => ((result, none), st1)

/-- The method `(s *service) CreateMovie(m)`. -/
def service.CreateMovie {σ : Type} (s : service σ) (m : Movie) (st : σ) : Option error × σ :=
  -- Returning if a record by the parameter id already exists
  match s.GetMovie m.ID st with
  | ((_, none), st1) => (some (.ExistingRecordError ("ID: " ++ fmt.int m.ID)), st1)
  | ((_, some _), st1) =>
    -- Inserting the new record
    let q := "INSERT INTO movies (id, name) VALUES ($1, $2)"
    match s.db.Exec q [.int m.ID, .string m.Name] st1 with
    | (some err, st2) => (some err, st2)
    | (none, st2) => (none, st2)

/-- The method `(s *service) UpdateMovie(id, m)`. -/
def service.UpdateMovie {σ : Type} (s : service σ) (id : Int) (m : Movie) (st : σ) :
    Option error × σ :=
  -- Returning if the record to update was not found in the database
  match s.GetMovie id st with
  | ((_, some _), st1) => (some (.NotExistingRecordError ("ID: " ++ fmt.int m.ID)), st1)
  | ((_, none), st1) =>
    -- Updating existing record
    let q := "UPDATE movies SET name = $1 WHERE id = $2"
    match s.db.Exec q [.string m.Name, .int id] st1 with
    | (some err, st2) => (some err, st2)
    | (none, st2) => (none, st2)

/-- The method `(s *service) DeleteMovie(id)`. -/
def service.DeleteMovie {σ : Type} (s : service σ) (id : Int) (st : σ) : Option error × σ :=
  let q := "DELETE FROM movies WHERE id = $1"
  match s.db.Exec q [.int id] st with
  | (some err, st1) => (some err, st1)
  | (none, st1) => (none, st1)

/-- The function `NewMovieService`. -/
def NewMovieService {σ : Type} (db : sql.DB σ) : MovieService σ :=
  let s : service σ := { db := db }
  { GetMovies := s.GetMovies
    GetMovie := s.GetMovie
    CreateMovie := s.CreateMovie
    UpdateMovie := s.UpdateMovie
    DeleteMovie := s.DeleteMovie }

/-! ## The movies table

The table `movies` as a collection of `(id, name)` rows in storage order, answering
the five statements of the service without transport failure. The statements
received are recorded, so that what a call executed can be read off the state. -/

/-- A statement as the database receives it: its text and the values bound. -/
structure Statement where
  query : String
  args : List driver.Value
  deriving DecidableEq, Repr

/-- The state of the database: the rows of `movies` and the statements received so
far, oldest first. -/
structure Store where
  rows : List Movie
  executed : List Statement
  deriving DecidableEq, Repr

/-- The store after it received one more statement. -/
def Store.record (st : Store) (query : String) (args : List driver.Value) : Store :=
  { st with executed := st.executed ++ [{ query := query, args := args }] }

/-- The answer of the table to a query: `SELECT *` delivers every row, with
`WHERE id = $1` the rows whose id is the value bound. Every row scans. -/
def Store.Query (query : String) (args : List driver.Value) (st : Store) :
    Except error (List sql.ScannedRow) × Store :=
  let st1 := st.record query args
  if query = "SELECT * FROM movies" then
    match args with
    | [] => (.ok (st.rows.map .ok), st1)
    | _ => (.error (errors.New "wrong number of arguments"), st1)
  else if query = "SELECT * FROM movies WHERE id = $1" then
    match args with
    | [.int id] => (.ok ((st.rows.filter (fun row => row.ID = id)).map .ok), st1)
    | _ => (.error (errors.New "wrong arguments"), st1)
  else
    (.error (errors.New "unknown query"), st1)

/-- The effect of a statement on the table: `INSERT` adds the row `($1, $2)` at the
end, `UPDATE` sets the name of the rows whose id is `$2` to `$1`, `DELETE` removes
the rows whose id is `$1`. -/
def Store.Exec (query : String) (args : List driver.Value) (st : Store) :
    Option error × Store :=
  let st1 := st.record query args
  if query = "INSERT INTO movies (id, name) VALUES ($1, $2)" then
    match args with
    | [.int id, .string name] => (none, { st1 with rows := st.rows ++ [Movie.mk id name] })
    | _ => (some (errors.New "wrong arguments"), st1)
  else if query = "UPDATE movies SET name = $1 WHERE id = $2" then
    match args with
    | [.string name, .int id] =>
      (none, { st1 with rows := st.rows.map (fun row =>
        if row.ID = id then { row with Name := name } else row) })
    | _ => (some (errors.New "wrong arguments"), st1)
  else if query = "DELETE FROM movies WHERE id = $1" then
    match args with
    | [.int id] => (none, { st1 with rows := st.rows.filter (fun row => ¬ row.ID = id) })
    | _ => (some (errors.New "wrong arguments"), st1)
  else
    (some (errors.New "unknown statement"), st1)

/-- The handle onto the movies table. -/
def Store.DB : sql.DB Store :=
  { Query := Store.Query, Exec := Store.Exec }

/-- The service `NewMovieService(db)` for the handle onto the movies table. -/
def Store.service : MovieService Store := NewMovieService Store.DB

/-- The row a query delivered, when it scans. -/
def sql.ScannedRow.movie : sql.ScannedRow → Option Movie
  | .ok m => some m
  | .error _ => none

/-- The error of a row that fails to scan. -/
def sql.ScannedRow.scanError : sql.ScannedRow → Option error
  | .ok _ => none
  | .error err => some err

/-- The reference for `GetMovies`, by the answer of the store to the query. If the
query fails: an empty sequence and that error. If a row fails to scan: an empty
sequence and the error of that row (the first such row). Otherwise: all rows as
Movies, in the order of the answer, and no error. -/
def GetMovies.reference : Except error (List sql.ScannedRow) → Option (List Movie) × Option error
  | .error err => (some [], some err)
  | .ok rows =>
    match rows.findSome? sql.ScannedRow.scanError with
    | some err => (some [], some err)
    | none => (some (rows.filterMap sql.ScannedRow.movie), none)

/-- Whether the table holds a row with the given id. -/
def Store.hasID (st : Store) (id : Int) : Bool := st.rows.any (fun row => row.ID = id)

/-! ## The libraries the controller calls

`net/http`, `gorilla/mux`, `strconv` and `encoding/json` are outside the repository.
The response writer is the recorder of `net/http/httptest`, which the tests use;
`strconv.ParseInt` is modelled in full for a base from 2 to 36; of `encoding/json`
the decoder is a parameter of the handlers and `json.Marshal` is modelled. -/

def http.MethodGet : String := "GET"
def http.MethodPost : String := "POST"
def http.MethodPut : String := "PUT"
def http.MethodDelete : String := "DELETE"

def http.StatusOK : Nat := 200
def http.StatusCreated : Nat := 201
def http.StatusNoContent : Nat := 204
def http.StatusBadRequest : Nat := 400
def http.StatusMethodNotAllowed : Nat := 405
def http.StatusInternalServerError : Nat := 500

/-- The part of `*http.Request` the handlers read: the method, the route variables
that `mux.Vars(r)` returns, and the bytes of the body. -/
structure http.Request where
  Method : String
  Vars : List (String × String)
  Body : String
  deriving DecidableEq, Repr

/-- The expression `mux.Vars(r)[key]`: the empty string for a key the map lacks. -/
def mux.Vars (r : http.Request) (key : String) : String :=
  (r.Vars.lookup key).getD ""

/-- The writer `http.ResponseWriter`, as `httptest.ResponseRecorder` implements it. -/
structure http.ResponseWriter where
  Code : Nat
  wroteHeader : Bool
  Body : String
  deriving DecidableEq, Repr

/-- The function `httptest.NewRecorder`. -/
def httptest.NewRecorder : http.ResponseWriter :=
  { Code := 200, wroteHeader := false, Body := "" }

/-- The method `WriteHeader`: the first status written stays. -/
def http.ResponseWriter.WriteHeader (w : http.ResponseWriter) (code : Nat) :
    http.ResponseWriter :=
  if w.wroteHeader then w else { w with Code := code, wroteHeader := true }

/-- The method `Write`: writes status 200 first when none was written. -/
def http.ResponseWriter.Write (w : http.ResponseWriter) (buf : String) : http.ResponseWriter :=
  let w1 := w.WriteHeader 200
  { w1 with Body := w1.Body ++ buf }

/-- The function `http.Error`: the status, then the message and a line feed. -/
def http.Error (w : http.ResponseWriter) (message : String) (code : Nat) : http.ResponseWriter :=
  (w.WriteHeader code).Write (message ++ "\n")

/-- The uses the controller makes of `encoding/json`. `Decode` is
`json.NewDecoder(r.Body).Decode(&m)` for a zero `m`, by the bytes of the body, with
the Movie left in `m` when it returns no error; it is a parameter. `json.Marshal` of
a Movie and of a slice of Movies is modelled below, from the `json` tags of
`model.Movie`; `shortEscapes` is the one point at which its output differs between
versions of Go: whether a backspace and a form feed in a string are written `\b`
and `\f` (Go 1.22 and later) or `\u0008` and `\u000c` (earlier). -/
structure json.Package where
  Decode : String → Except error Movie
  shortEscapes : Bool

/-- The digit `hex[n]` of `encoding/json`, for `n` below 16. -/
def json.hex (n : Nat) : Char :=
  "0123456789abcdef".data.getD n '0'

/-- The table `htmlSafeSet` of `encoding/json`: the ASCII characters written as they
are, which are those from the space (32) to 127 but for the double quote (34), `&`
(38), `<` (60), `>` (62) and the backslash (92). -/
def json.htmlSafe (c : Char) : Bool :=
  32 ≤ c.toNat ∧ c.toNat < 128 ∧ c.toNat ≠ 34 ∧ c.toNat ≠ 38 ∧ c.toNat ≠ 60 ∧
    c.toNat ≠ 62 ∧ c.toNat ≠ 92

/-- What `json.Marshal` writes for one character of a string, with HTML escaping on:
an ASCII character of `htmlSafeSet` as it is; the backslash (92) and the double
quote (34) after a backslash; the line feed (10), carriage return (13) and tab (9)
as `\n`, `\r`, `\t`; any other ASCII character as `\u00` and two hex digits (the
backspace, 8, and the form feed, 12, as `\b` and `\f` when `shortEscapes`); the
separators U+2028 and U+2029 as `\u2028` and `\u2029`; any other character as it
is. A Lean string holds valid characters only, so the replacement of invalid UTF-8
by `\ufffd` has no case here. -/
def json.Package.encodeChar (enc : json.Package) (c : Char) : List Char :=
  if c.toNat < 128 then
    if json.htmlSafe c then [c]
    else if c.toNat = 92 ∨ c.toNat = 34 then ['\\', c]
    else if enc.shortEscapes ∧ c.toNat = 8 then ['\\', 'b']
    else if enc.shortEscapes ∧ c.toNat = 12 then ['\\', 'f']
    else if c.toNat = 10 then ['\\', 'n']
    else if c.toNat = 13 then ['\\', 'r']
    else if c.toNat = 9 then ['\\', 't']
    else ['\\', 'u', '0', '0', json.hex (c.toNat / 16), json.hex (c.toNat % 16)]
  else if c.toNat = 8232 ∨ c.toNat = 8233 then
    ['\\', 'u', '2', '0', '2', json.hex (c.toNat % 16)]
  else
    [c]

/-- What `json.Marshal` writes for a string: its characters, encoded, between double
quotes. -/
def json.Package.encodeString (json : json.Package) (s : String) : String :=
  "\"" ++ String.mk (s.data.map json.encodeChar).flatten ++ "\""

/-- The call `json.Marshal(movie)` for a `model.Movie`: an object with the fields in
the order of the struct, under the keys of their tags, `json:"id"` and `json:"name"`;
the id in decimal, the name as a string. -/
def json.Package.MarshalMovie (json : json.Package) (movie : Movie) : String :=
  "\x7b\"id\":" ++ fmt.int movie.ID ++ ",\"name\":" ++ json.encodeString movie.Name ++ "\x7d"

/-- The call `json.Marshal(movies)` for a `[]model.Movie`: `null` for the nil slice,
otherwise an array of the objects of the Movies, separated by commas. -/
def json.Package.MarshalMovies (json : json.Package) (movies : Option (List Movie)) : String :=
  match movies with
  | none => "null"
  | some ms => "[" ++ ",".intercalate (ms.map json.MarshalMovie) ++ "]"

def strconv.IntSize : Nat := 64

/-- The value `&NumError{fn, str, ErrSyntax}`. -/
def strconv.syntaxError (fn str : String) : error := .NumError fn str "invalid syntax"

/-- The value `&NumError{fn, str, ErrRange}`. -/
def strconv.rangeError (fn str : String) : error := .NumError fn str "value out of range"

/-- The digit a byte stands for in `ParseUint`: `c - '0'` for a decimal digit,
`lower(c) - 'a' + 10` for a letter, where `lower(c)` is `c | ('x' - 'X')`. The bytes
`'0'`, `'9'`, `'a'`, `'z'` are 48, 57, 97, 122, and `'x' - 'X'` is 32. A character
outside ASCII is read as its UTF-8 bytes by Go; none of them is a digit or a
letter, and neither is the character here. -/
def strconv.digit (c : Char) : Option Nat :=
  if 48 ≤ c.toNat ∧ c.toNat ≤ 57 then
    some (c.toNat - 48)
  else if 97 ≤ (c.toNat ||| 32) ∧ (c.toNat ||| 32) ≤ 122 then
    some ((c.toNat ||| 32) - 97 + 10)
  else
    none

/-- The loop of `ParseUint` over the bytes of `s`, with `n` the `uint64` read so far. -/
def strconv.ParseUint.loop (s0 : String) (base cutoff maxVal : Nat) :
    List Char → Nat → Nat × Option error
  | [], n => (n, none)
  | c :: cs, n =>
    match strconv.digit c with
    | none => (0, some (strconv.syntaxError "ParseUint" s0))
    | some d =>
      if d ≥ base then
        (0, some (strconv.syntaxError "ParseUint" s0))
      else if n ≥ cutoff then
        -- n*base overflows
        (maxVal, some (strconv.rangeError "ParseUint" s0))
      else
        let n0 := n * base
        let n1 := (n0 + d) % 2 ^ 64
        if n1 < n0 ∨ n1 > maxVal then
          -- n+d overflows
          (maxVal, some (strconv.rangeError "ParseUint" s0))
        else
          strconv.ParseUint.loop s0 base cutoff maxVal cs n1

/-- The function `strconv.ParseUint(s, base, bitSize)` for `2 ≤ base ≤ 36`. Base 0
(a base read off the prefix of `s`) is not modelled: the program passes base 10. -/
def strconv.ParseUint (s : String) (base bitSize : Nat) : Nat × Option error :=
  if s = "" then
    (0, some (strconv.syntaxError "ParseUint" s))
  else if ¬ (2 ≤ base ∧ base ≤ 36) then
    (0, some (.NumError "ParseUint" s ("invalid base " ++ toString base)))
  else if bitSize > 64 then
    (0, some (.NumError "ParseUint" s ("invalid bit size " ++ toString bitSize)))
  else
    let bitSize := if bitSize = 0 then strconv.IntSize else bitSize
    -- Cutoff is the smallest number such that cutoff*base > maxUint64.
    let cutoff := (2 ^ 64 - 1) / base + 1
    let maxVal := 2 ^ bitSize - 1
    strconv.ParseUint.loop s base cutoff maxVal s.data 0

/-- The conversion `int64(x)` of an integer: its value modulo `2 ^ 64` in the range of
`int64`. -/
def int64 (x : Int) : Int := (x + 2 ^ 63) % 2 ^ 64 - 2 ^ 63

/-- The end of `ParseInt`, from `cutoff := uint64(1 << uint(bitSize-1))` on: the range
check of the unsigned value `un` against the sign, and the conversion to `int64`. -/
def strconv.ParseInt.signed (s0 : String) (neg : Bool) (bitSize un : Nat) : Int × Option error :=
  let bitSize := if bitSize = 0 then strconv.IntSize else bitSize
  let cutoff := 2 ^ (bitSize - 1)
  if ¬ neg ∧ un ≥ cutoff then
    (int64 (cutoff - 1), some (strconv.rangeError "ParseInt" s0))
  else if neg ∧ un > cutoff then
    (int64 (- int64 cutoff), some (strconv.rangeError "ParseInt" s0))
  else
    let n := int64 un
    (if neg then int64 (- n) else n, none)

/-- The middle of `ParseInt`, under the comment `Convert unsigned and check range`:
`s` is the input `s0` after its sign, and `neg` tells whether the sign was `-`. -/
def strconv.ParseInt.unsigned (s0 : String) (neg : Bool) (s : String) (base bitSize : Nat) :
    Int × Option error :=
  match strconv.ParseUint s base bitSize with
  | (un, none) => strconv.ParseInt.signed s0 neg bitSize un
  | (un, some (.NumError _ _ Err)) =>
    if Err ≠ "value out of range" then
      (0, some (.NumError "ParseInt" s0 Err))
    else
      strconv.ParseInt.signed s0 neg bitSize un
  | (_, some err) => (0, some err)

/-- The function `strconv.ParseInt(s, base, bitSize)` for `2 ≤ base ≤ 36`. -/
def strconv.ParseInt (s : String) (base bitSize : Nat) : Int × Option error :=
  if s = "" then
    (0, some (strconv.syntaxError "ParseInt" s))
  else
    -- Pick off leading sign.
    match s.data with
    | '+' :: cs => strconv.ParseInt.unsigned s false (String.mk cs) base bitSize
    | '-' :: cs => strconv.ParseInt.unsigned s true (String.mk cs) base bitSize
    | _ => strconv.ParseInt.unsigned s false s base bitSize

/-! ## The HTTP handlers (`api/movie/movie_controller.go`) -/

/-- An operand of `log.Println`: a string, or the text `err.Error()` of an error, which
is kept as the error it is the text of. -/
inductive log.Operand where
  | string (s : String)
  | errorText (err : error)
  deriving DecidableEq, Repr

/-- What a handler works on besides its writer and its request: the state behind the
service and the lines written by `log.Println`, oldest first, each by its operands. -/
structure Process (σ : Type) where
  state : σ
  log : List (List log.Operand)

/-- The function `log.Println`. -/
def log.Println {σ : Type} (p : Process σ) (operands : List log.Operand) : Process σ :=
  { p with log := p.log ++ [operands] }

/-- The struct `controller`. -/
structure controller (σ : Type) where
  service : MovieService σ

/-- The function `NewMovieController`. -/
def NewMovieController {σ : Type} (s : MovieService σ) : controller σ :=
  { service := s }

/-- The function `handleMethodNotAllowed`. -/
def handleMethodNotAllowed {σ : Type} (w : http.ResponseWriter) (logMessage : String)
    (p : Process σ) : http.ResponseWriter × Process σ :=
  (http.Error w "Method not allowed" http.StatusMethodNotAllowed,
   log.Println p [.string "[405 - Method Not Allowed] ", .string logMessage])

/-- The function `handleServerError`. -/
def handleServerError {σ : Type} (w : http.ResponseWriter) (err : error) (message : String)
    (p : Process σ) : http.ResponseWriter × Process σ :=
  (http.Error w message http.StatusInternalServerError,
   log.Println p [.string "[500 - Internal Server Error] ", .errorText err])

/-- The function `handleBadRequest`; both callers pass `err.Error()` as `logMessage`. -/
def handleBadRequest {σ : Type} (w : http.ResponseWriter) (responseMessage : String)
    (logMessage : log.Operand) (p : Process σ) : http.ResponseWriter × Process σ :=
  (http.Error w responseMessage http.StatusBadRequest,
   log.Println p [.string "[400 - Bad Request] ", logMessage])

/-- The function `parseValidMovie`: `.error err` is its return `nil, err`, and `.ok m`
its return `&m, nil`. -/
def parseValidMovie (json : json.Package) (r : http.Request) : Except error Movie :=
  -- Return if the request-body cannot be decoded into a Movie object
  match json.Decode r.Body with
  | .error err => .error err
  | .ok m =>
    -- Return if the requested Movie object is invalid
    match m.Validate with
    | some _ => .error (errors.New "invalid movie-object")
    | none => .ok m

/-- The method `(c *controller) GetMovies(w, r)`. -/
def controller.GetMovies {σ : Type} (c : controller σ) (json : json.Package)
    (w : http.ResponseWriter) (r : http.Request) (p : Process σ) :
    http.ResponseWriter × Process σ :=
  if r.Method ≠ http.MethodGet then
    handleMethodNotAllowed w (r.Method ++ " method to GetMovies") p
  else
    match c.service.GetMovies p.state with
    | ((_, some err), st) => handleServerError w err "Service unreachable" { p with state := st }
    | ((movies, none), st) =>
      let res := json.MarshalMovies movies
      (w.Write res, { p with state := st })

/-- The method `(c *controller) GetMovie(w, r)`. The conversion `int(id)` of the parsed
`int64` is the identity for an `int` of 64 bits, here and in the next handlers. -/
def controller.GetMovie {σ : Type} (c : controller σ) (json : json.Package)
    (w : http.ResponseWriter) (r : http.Request) (p : Process σ) :
    http.ResponseWriter × Process σ :=
  if r.Method ≠ http.MethodGet then
    handleMethodNotAllowed w (r.Method ++ " method to GetMovie") p
  else
    match strconv.ParseInt (mux.Vars r "id") 10 0 with
    | (_, some err) => handleBadRequest w "Invalid ID" (.errorText err) p
    | (id, none) =>
      match c.service.GetMovie id p.state with
      | ((_, some err), st) => handleServerError w err "Service unreachable" { p with state := st }
      | ((movie, none), st) =>
        let res := json.MarshalMovie movie
        (w.Write res, { p with state := st })

/-- The method `(c *controller) CreateMovie(w, r)`. -/
def controller.CreateMovie {σ : Type} (c : controller σ) (json : json.Package)
    (w : http.ResponseWriter) (r : http.Request) (p : Process σ) :
    http.ResponseWriter × Process σ :=
  if r.Method ≠ http.MethodPost then
    handleMethodNotAllowed w (r.Method ++ " method to CreateMovie") p
  else
    -- Extracting Movie object from request-body
    match parseValidMovie json r with
    | .error err => handleBadRequest w "Invalid request body" (.errorText err) p
    | .ok m =>
      -- Create the Movie object in the database
      match c.service.CreateMovie m p.state with
      | (some err, st) => handleServerError w err "Service unreachable" { p with state := st }
      | (none, st) =>
        ((w.WriteHeader http.StatusCreated).Write "success\n", { p with state := st })

/-- The method `(c *controller) UpdateMovie(w, r)`. -/
def controller.UpdateMovie {σ : Type} (c : controller σ) (json : json.Package)
    (w : http.ResponseWriter) (r : http.Request) (p : Process σ) :
    http.ResponseWriter × Process σ :=
  if r.Method ≠ http.MethodPut then
    handleMethodNotAllowed w (r.Method ++ " method to UpdateMovie") p
  else
    -- Converting the ID to an integer
    match strconv.ParseInt (mux.Vars r "id") 10 0 with
    | (_, some err) => handleBadRequest w "Invalid ID" (.errorText err) p
    | (id, none) =>
      -- Extracting Movie object from request-body
      match parseValidMovie json r with
      | .error err => handleBadRequest w "Invalid request body" (.errorText err) p
      | .ok m =>
        -- Updating Movie object in the database
        match c.service.UpdateMovie id m p.state with
        | (some err, st) => handleServerError w err "Service unreachable" { p with state := st }
        | (none, st) => (w.Write "success\n", { p with state := st })

/-- The method `(c *controller) DeleteMovie(w, r)`. -/
def controller.DeleteMovie {σ : Type} (c : controller σ)
    (w : http.ResponseWriter) (r : http.Request) (p : Process σ) :
    http.ResponseWriter × Process σ :=
  if r.Method ≠ http.MethodDelete then
    handleMethodNotAllowed w (r.Method ++ " method to DeleteMovie") p
  else
    -- Converting the ID to an integer
    match strconv.ParseInt (mux.Vars r "id") 10 0 with
    | (_, some err) => handleBadRequest w "Invalid ID" (.errorText err) p
    | (id, none) =>
      -- Deleting Movie object from the database
      match c.service.DeleteMovie id p.state with
      | (some err, st) => handleServerError w err "Service unreachable" { p with state := st }
      | (none, st) =>
        ((w.WriteHeader http.StatusNoContent).Write "success\n", { p with state := st })

/-! ## The mock service of `api/movie/movie_controller_test.go` -/

/-- A call of a method of `MovieService`, with its arguments. -/
inductive mock.Call where
  | GetMovies
  | GetMovie (id : Int)
  | CreateMovie (m : Movie)
  | UpdateMovie (id : Int) (m : Movie)
  | DeleteMovie (id : Int)
  deriving DecidableEq, Repr

/-- What the mock returns from each method, as set by `On(...).Return(...)`. -/
structure mock.Returns where
  GetMovies : Option (List Movie) × Option error
  GetMovie : Movie × Option error
  CreateMovie : Option error
  UpdateMovie : Option error
  DeleteMovie : Option error

/-- The struct `mockServiceStruct`: every method records its call (`s.Called(...)`)
and returns what was set. The state is the list of calls made, oldest first. -/
def mockService (ret : mock.Returns) : MovieService (List mock.Call) :=
  { GetMovies := fun calls => (ret.GetMovies, calls ++ [.GetMovies])
    GetMovie := fun id calls => (ret.GetMovie, calls ++ [.GetMovie id])
    CreateMovie := fun m calls => (ret.CreateMovie, calls ++ [.CreateMovie m])
    UpdateMovie := fun id m calls => (ret.UpdateMovie, calls ++ [.UpdateMovie id m])
    DeleteMovie := fun id calls => (ret.DeleteMovie, calls ++ [.DeleteMovie id]) }

/-- The mock set to return the error of the `...ServiceError` tests from every method. -/
def mock.failing : mock.Returns :=
  { GetMovies := (some [], some (errors.New "test-error-message"))
    GetMovie := (Movie.mk 0 "", some (errors.New "test-error-message"))
    CreateMovie := some (errors.New "test-error-message")
    UpdateMovie := some (errors.New "test-error-message")
    DeleteMovie := some (errors.New "test-error-message") }

/-- The mock set as in the tests of the successful calls: `GetMovies` returns the two
Movies of `TestControllerGetMovies`, `GetMovie` the Movie of `TestControllerGetMovie`,
and the other methods return no error. -/
def mock.succeeding : mock.Returns :=
  { GetMovies := (some [Movie.mk 1 "test1", Movie.mk 2 "test2"], none)
    GetMovie := (Movie.mk 1 "test", none)
    CreateMovie := none
    UpdateMovie := none
    DeleteMovie := none }

/-- A stand-in for the decoder of `encoding/json`, for the bodies of the tests and of
the scenarios of the specification: `Decode` knows the bodies listed and answers
any other body with an error. It marshals as Go 1.22 and later do. -/
def json.testPackage : json.Package :=
  { Decode := fun body =>
      if body = "\x7b\"ID\":1\x7d" then
        .ok (Movie.mk 1 "")
      else if body = "\x7b\"id\":1,\"name\":\"test\"\x7d" then
        .ok (Movie.mk 1 "test")
      else if body = "\x7b\"id\":0,\"name\":\"test\"\x7d" then
        .ok (Movie.mk 0 "test")
      else if body = "\x7b\"id\":1,\"name\":\"Alien\"\x7d" then
        .ok (Movie.mk 1 "Alien")
      else if body = "\x7b\"name\":\"Aliens\"\x7d" then
        .ok (Movie.mk 0 "Aliens")
      else
        .error (errors.New "invalid character 'o' in literal null (expecting 'u')")
    shortEscapes := true }

/-! ## Base-10 integers

What it is for a path segment to be a base-10 integer representable as an `int`,
stated without reference to `strconv`. -/

/-- A decimal digit, `0` to `9` (the characters 48 to 57). -/
def decimal.isDigit (c : Char) : Bool := 48 ≤ c.toNat ∧ c.toNat ≤ 57

/-- The number a sequence of decimal digits denotes when read after the number `n`. -/
def decimal.value : List Char → Nat → Nat
  | [], n => n
  | c :: cs, n => decimal.value cs (10 * n + (c.toNat - 48))

/-- The number a sequence of characters denotes when it is one or more decimal
digits. -/
def decimal.natural? (cs : List Char) : Option Nat :=
  if cs ≠ [] ∧ cs.all decimal.isDigit then some (decimal.value cs 0) else none

/-- The integer a string denotes in base 10: an optional sign `+` or `-`, followed by
one or more decimal digits. -/
def decimal.integer? (s : String) : Option Int :=
  match s.data with
  | '-' :: cs => (decimal.natural? cs).map (fun n : Nat => - (n : Int))
  | '+' :: cs => (decimal.natural? cs).map (fun n : Nat => (n : Int))
  | cs => (decimal.natural? cs).map (fun n : Nat => (n : Int))

/-- Whether a string is a base-10 integer representable as an `int` of 64 bits: its
value lies between `-2^63` and `2^63 - 1`. -/
def decimal.isInt (s : String) : Bool :=
  match decimal.integer? s with
  | some v => decide (-(2 : Int) ^ 63 ≤ v ∧ v < (2 : Int) ^ 63)
  | none => false

/-! ## Sequences of requests -/

/-- The five methods of the interface `MovieController`. -/
inductive MovieController.Handler where
  | GetMovies
  | GetMovie
  | CreateMovie
  | UpdateMovie
  | DeleteMovie
  deriving DecidableEq, Repr

/-- The call `h(w, r)` of one of the five methods of a controller. -/
def controller.call {σ : Type} (c : controller σ) (json : json.Package)
    (h : MovieController.Handler) (w : http.ResponseWriter) (r : http.Request)
    (p : Process σ) : http.ResponseWriter × Process σ :=
  match h with
  | .GetMovies => c.GetMovies json w r p
  | .GetMovie => c.GetMovie json w r p
  | .CreateMovie => c.CreateMovie json w r p
  | .UpdateMovie => c.UpdateMovie json w r p
  | .DeleteMovie => c.DeleteMovie w r p

/-- A sequence of requests handled one after the other, each by the handler named
with it and with a writer of its own: the state and log after the last of them. -/
def controller.serveAll {σ : Type} (c : controller σ) (json : json.Package) :
    List (MovieController.Handler × http.Request) → Process σ → Process σ
  | [], p => p
  | (h, r) :: rest, p =>
    controller.serveAll c json rest (c.call json h httptest.NewRecorder r p).2

/-! ## The router (`api/movie/movie_router.go`)

`gorilla/mux` is outside the repository, and the repository does not pin its release.
Its matching is modelled for what `setRouting` builds: a router with one route,
`PathPrefix(tpl).Subrouter()`, and on the subrouter routes made by
`HandleFunc(path, f).Methods(...)`. A route starts from a copy of the configuration
of its router, so a route of the subrouter has three matchers: the regexp of the
prefix, which it inherits, the regexp of its path, and its methods. The model
follows `Route.Match`, `Router.Match` and `Router.ServeHTTP` of mux 1.8.0 and of mux
1.8.1, which differ in one step of `Route.Match`, with no middleware and with the
default handlers for "not found" and "method not allowed". -/

/-- The request as the server hands it to the router: the method, `r.URL.Path` and
the bytes of the body. The route variables are set by the router. -/
structure http.ServerRequest where
  Method : String
  Path : String
  Body : String
  deriving DecidableEq, Repr

/-- The elements of a path, between its slashes. -/
def path.split : List Char → List (List Char)
  | [] => [[]]
  | c :: cs =>
    if c = '/' then
      [] :: path.split cs
    else
      match path.split cs with
      | [] => [[c]]
      | e :: es => (c :: e) :: es

/-- One element read by `path.Clean` in a rooted path, after the elements kept so far:
an empty element and `.` are dropped, `..` drops the element before it (none at the
root), any other element is kept. -/
def path.Clean.step (kept : List (List Char)) (e : List Char) : List (List Char) :=
  if e = [] ∨ e = ['.'] then kept
  else if e = ['.', '.'] then kept.dropLast
  else kept ++ [e]

/-- The function `path.Clean` on a rooted path (one that starts with a slash), which
is what `cleanPath` gives it: the elements kept, each after one slash, or the root. -/
def path.Clean (p : List Char) : List Char :=
  match (path.split p).foldl path.Clean.step [] with
  | [] => ['/']
  | kept => (kept.map (fun e => '/' :: e)).flatten

/-- The function `cleanPath` of mux: the canonical form of the path, with the trailing
slash put back. -/
def mux.cleanPath (p : String) : String :=
  if p = "" then
    "/"
  else
    let p1 : String := if p.data.head? = some '/' then p else "/" ++ p
    let np : String := String.mk (path.Clean p1.data)
    -- path.Clean removes trailing slash except for root;
    -- put the trailing slash back if necessary.
    if p1.data.getLast? = some '/' ∧ np ≠ "/" then np ++ "/" else np

/-- The match of a path against the regexp of a route template, and the variables it
sets. A variable `\x7bname\x7d` stands for the pattern `[^/]+`, one or more characters
other than a slash; it is modelled at the end of the template only, which is where
`setRouting` has it (elsewhere the template matches nothing in this model). -/
def mux.matchTemplate : List Char → List Char → Option (List (String × String))
  | [], [] => some []
  | [], _ :: _ => none
  | c :: tpl, p =>
    if c = '\x7b' then
      if tpl.dropWhile (fun x => x ≠ '\x7d') = ['\x7d'] ∧ p ≠ [] ∧ '/' ∉ p then
        some [(String.mk (tpl.takeWhile (fun x => x ≠ '\x7d')), String.mk p)]
      else
        none
    else
      match p with
      | [] => none
      | x :: rest => if c = x then mux.matchTemplate tpl rest else none

/-- The errors `ErrMethodMismatch` and `ErrNotFound` of mux. -/
inductive mux.MatchErr where
  | ErrMethodMismatch
  | ErrNotFound
  deriving DecidableEq, Repr

/-- The struct `mux.RouteMatch`, without its `Route`; `H` is the type of the handlers. -/
structure mux.RouteMatch (H : Type) where
  Handler : Option H
  Vars : List (String × String)
  MatchErr : Option mux.MatchErr

/-- The one point at which `Route.Match` differs between the releases of mux modelled
here: from mux 1.8.1 on, a matcher that succeeds clears an `ErrMethodMismatch` that
an earlier route left in the match; mux 1.8.0 has no such step. The repository does
not pin the release. -/
structure mux.Package where
  clearsMethodMismatch : Bool
  deriving DecidableEq, Repr

/-- The release 1.8.0 of mux. -/
def mux.v1_8_0 : mux.Package := { clearsMethodMismatch := false }

/-- The release 1.8.1 of mux. -/
def mux.v1_8_1 : mux.Package := { clearsMethodMismatch := true }

/-- The interface `matcher` of mux: the method `Match`, which may write to the match,
and whether the dynamic type is `methodMatcher`, which `Route.Match` asks for. -/
structure mux.matcher (H : Type) where
  Match : http.ServerRequest → mux.RouteMatch H → Bool × mux.RouteMatch H
  isMethodMatcher : Bool

/-- The types `regexpTypePath` and `regexpTypePrefix` of a route regexp. -/
inductive mux.regexpType where
  | regexpTypePath
  | regexpTypePrefix
  deriving DecidableEq, Repr

/-- The struct `routeRegexp`, by its template and type; strict slash and encoded paths
are off, as they are in a router of `NewRouter`. -/
structure mux.routeRegexp where
  template : String
  regexpType : mux.regexpType
  deriving DecidableEq, Repr

/-- The method `(r *routeRegexp) Match`: whether the regexp matches `req.URL.Path`.
The regexp of a path template is anchored at both ends. The regexp of a prefix is
anchored at the start only; it is modelled for a template without variables, which
a path matches when it starts with it. -/
def mux.routeRegexp.Match (rr : mux.routeRegexp) (req : http.ServerRequest) : Bool :=
  match rr.regexpType with
  | .regexpTypePath => (mux.matchTemplate rr.template.data req.Path.data).isSome
  | .regexpTypePrefix => rr.template.data.isPrefixOf req.Path.data

/-- A route regexp as a `matcher`. -/
def mux.routeRegexp.matcher {H : Type} (rr : mux.routeRegexp) : mux.matcher H :=
  { Match := fun req m => (rr.Match req, m), isMethodMatcher := false }

/-- The type `methodMatcher` as a `matcher`: whether `req.Method` is one of the
methods. -/
def mux.methodMatcher {H : Type} (methods : List String) : mux.matcher H :=
  { Match := fun req m => (decide (req.Method ∈ methods), m), isMethodMatcher := true }

/-- The struct `mux.Route`: the handler, and of the configuration `routeConf` the
matchers and the path regexp. Routes of `setRouting` carry no error and are not
build-only. -/
structure mux.Route (H : Type) where
  handler : Option H
  matchers : List (mux.matcher H)
  regexpPath : Option mux.routeRegexp

/-- The struct `mux.Router`: its routes, in the order they were added, and of the
configuration `routeConf`, which its routes start from, the matchers and the path
regexp. No middleware, `NotFoundHandler` or `MethodNotAllowedHandler` is set. -/
structure mux.Router (H : Type) where
  routes : List (mux.Route H)
  matchers : List (mux.matcher H)
  regexpPath : Option mux.routeRegexp

/-- The function `mux.NewRouter`. -/
def mux.NewRouter {H : Type} : mux.Router H :=
  { routes := [], matchers := [], regexpPath := none }

/-- The route `(r *Router) NewRoute` makes, with a copy of the configuration of the
router. Go appends the route to `r.routes` and hands out a pointer to it; here the
caller puts the finished route into the routes. -/
def mux.Router.NewRoute {H : Type} (r : mux.Router H) : mux.Route H :=
  { handler := none, matchers := r.matchers, regexpPath := r.regexpPath }

/-- The call `strings.TrimRight(s, "/")`. -/
def strings.TrimRightSlash (s : String) : String :=
  String.mk (s.data.reverse.dropWhile (fun c => c = '/')).reverse

/-- The method `(r *Route) addRegexpMatcher` for a path or a prefix: the template is
put after the template of the path regexp the route has so far, the new regexp
becomes the path regexp of the route and is added to its matchers. The templates of
`setRouting` are empty or start with a slash, so no error arises. -/
def mux.Route.addRegexpMatcher {H : Type} (r : mux.Route H) (tpl : String)
    (typ : mux.regexpType) : mux.Route H :=
  let tpl1 : String :=
    match r.regexpPath with
    | some path => strings.TrimRightSlash path.template ++ tpl
    | none => tpl
  let rr : mux.routeRegexp := { template := tpl1, regexpType := typ }
  { r with regexpPath := some rr, matchers := r.matchers ++ [rr.matcher] }

/-- The method `(r *Route) Path`. -/
def mux.Route.Path {H : Type} (r : mux.Route H) (tpl : String) : mux.Route H :=
  r.addRegexpMatcher tpl .regexpTypePath

/-- The method `(r *Route) PathPrefix`. -/
def mux.Route.PathPrefix {H : Type} (r : mux.Route H) (tpl : String) : mux.Route H :=
  r.addRegexpMatcher tpl .regexpTypePrefix

/-- The method `(r *Route) HandlerFunc`. -/
def mux.Route.HandlerFunc {H : Type} (r : mux.Route H) (f : H) : mux.Route H :=
  { r with handler := some f }

/-- The method `(r *Route) Methods`, which adds a `methodMatcher` for the methods in
upper case; `strings.ToUpper` is modelled on ASCII letters, which the methods of
`setRouting` are made of. -/
def mux.Route.Methods {H : Type} (r : mux.Route H) (methods : List String) : mux.Route H :=
  { r with matchers := r.matchers ++
      [mux.methodMatcher (methods.map fun v => String.mk (v.data.map Char.toUpper))] }

/-- The method `(r *Router) PathPrefix`. -/
def mux.Router.PathPrefix {H : Type} (r : mux.Router H) (tpl : String) : mux.Route H :=
  r.NewRoute.PathPrefix tpl

/-- The method `(r *Router) HandleFunc`. -/
def mux.Router.HandleFunc {H : Type} (r : mux.Router H) (path : String) (f : H) :
    mux.Route H :=
  (r.NewRoute.Path path).HandlerFunc f

/-- The method `setMatch` of the regexps of a route: the variables of the path regexp,
when it matches the path, are stored in the match. A prefix without variables
stores none. -/
def mux.Route.setMatch {H : Type} (r : mux.Route H) (req : http.ServerRequest)
    (m : mux.RouteMatch H) : mux.RouteMatch H :=
  match r.regexpPath with
  | some { template := tpl, regexpType := .regexpTypePath } =>
    match mux.matchTemplate tpl.data req.Path.data with
    | some vars => { m with Vars := m.Vars ++ vars }
    | none => m
  | _ => m

/-- The loop `for _, m := range r.matchers` of `(r *Route) Match`, with the local
`matchErr`. The first component is `none` when the loop ends in `return false`. A
matcher that fails ends the match, after an `ErrNotFound` of the match is cleared,
but for a `methodMatcher`, whose failure is kept in `matchErr`. In mux 1.8.1 a
matcher that succeeds clears an `ErrMethodMismatch` of the match. -/
def mux.Route.Match.loop {H : Type} (lib : mux.Package) (req : http.ServerRequest) :
    List (mux.matcher H) → Option mux.MatchErr → mux.RouteMatch H →
    Option (Option mux.MatchErr) × mux.RouteMatch H
  | [], matchErr, m => (some matchErr, m)
  | mt :: rest, matchErr, m =>
    match mt.Match req m with
    | (false, m1) =>
      if mt.isMethodMatcher then
        mux.Route.Match.loop lib req rest (some .ErrMethodMismatch) m1
      else
        -- Ignore ErrNotFound errors. These errors arise from match call
        -- to Subrouters.
        (none, if m1.MatchErr = some .ErrNotFound then { m1 with MatchErr := none } else m1)
    | (true, m1) =>
      if lib.clearsMethodMismatch ∧ m1.MatchErr = some .ErrMethodMismatch then
        mux.Route.Match.loop lib req rest matchErr { m1 with MatchErr := none }
      else
        mux.Route.Match.loop lib req rest matchErr m1

/-- The method `(r *Route) Match`. -/
def mux.Route.Match {H : Type} (lib : mux.Package) (r : mux.Route H)
    (req : http.ServerRequest) (m : mux.RouteMatch H) : Bool × mux.RouteMatch H :=
  match mux.Route.Match.loop lib req r.matchers none m with
  | (none, m1) => (false, m1)
  | (some (some matchErr), m1) => (false, { m1 with MatchErr := some matchErr })
  | (some none, m1) =>
    let m2 : mux.RouteMatch H :=
      if m1.MatchErr = some .ErrMethodMismatch ∧ r.handler.isSome then
        -- We found a route which matches request method, clear MatchErr
        -- Then override the mis-matched handler
        { m1 with MatchErr := none, Handler := r.handler }
      else m1
    -- Yay, we have a match. Let's collect some info about it.
    let m3 : mux.RouteMatch H :=
      if m2.Handler.isNone then { m2 with Handler := r.handler } else m2
    -- Set variables.
    (true, r.setMatch req m3)

/-- The loop `for _, route := range r.routes` of `(r *Router) Match`. -/
def mux.Router.Match.loop {H : Type} (lib : mux.Package) (req : http.ServerRequest) :
    List (mux.Route H) → mux.RouteMatch H → Bool × mux.RouteMatch H
  | [], m => (false, m)
  | route :: rest, m =>
    match route.Match lib req m with
    | (true, m1) => (true, m1)
    | (false, m1) => mux.Router.Match.loop lib req rest m1

/-- The method `(r *Router) Match`, with no `MethodNotAllowedHandler` and no
`NotFoundHandler` set. -/
def mux.Router.Match {H : Type} (lib : mux.Package) (r : mux.Router H)
    (req : http.ServerRequest) (m : mux.RouteMatch H) : Bool × mux.RouteMatch H :=
  match mux.Router.Match.loop lib req r.routes m with
  | (true, m1) => (true, m1)
  | (false, m1) =>
    if m1.MatchErr = some .ErrMethodMismatch then
      (false, m1)
    else
      -- Closest match for a router (includes sub-routers)
      (false, { m1 with MatchErr := some .ErrNotFound })

/-- A router as a `matcher`, which is what `(r *Route) Subrouter` adds to the route. -/
def mux.Router.matcher {H : Type} (lib : mux.Package) (r : mux.Router H) : mux.matcher H :=
  { Match := r.Match lib, isMethodMatcher := false }

/-- The router `(r *Route) Subrouter` makes, with a copy of the configuration of the
route and no routes yet. -/
def mux.Route.Subrouter {H : Type} (r : mux.Route H) : mux.Router H :=
  { routes := [], matchers := r.matchers, regexpPath := r.regexpPath }

/-- The method `(r *Router) ServeHTTP`. A path that is not in canonical form is
redirected (status 301). A matched handler is called, through `call`, with the
request and its route variables. With no handler, `ErrMethodMismatch` is answered by
`methodNotAllowedHandler`, which writes status 405 and no body, and anything else by
`http.NotFoundHandler`. -/
def mux.Router.ServeHTTP {H σ : Type} (lib : mux.Package) (r : mux.Router H)
    (call : H → http.ResponseWriter → http.Request → Process σ →
      http.ResponseWriter × Process σ)
    (w : http.ResponseWriter) (req : http.ServerRequest) (p : Process σ) :
    http.ResponseWriter × Process σ :=
  if mux.cleanPath req.Path ≠ req.Path then
    (w.WriteHeader 301, p)
  else
    match r.Match lib req { Handler := none, Vars := [], MatchErr := none } with
    | (true, { Handler := some h, Vars := vars, MatchErr := _ }) =>
      call h w { Method := req.Method, Vars := vars, Body := req.Body } p
    | (_, m) =>
      if m.MatchErr = some .ErrMethodMismatch then
        (w.WriteHeader http.StatusMethodNotAllowed, p)
      else
        (http.Error w "404 page not found" 404, p)

/-- The function `setRouting`, with the methods of the controller by their names. The
route of the prefix `/movies` holds a pointer to its subrouter `sr`, to which the
five routes are added afterwards; here the subrouter is added to the matchers of
that route once it has its routes, and the route is the one route of `main`. -/
def setRouting (lib : mux.Package) (main : mux.Router MovieController.Handler) :
    mux.Router MovieController.Handler :=
  let route := main.PathPrefix "/movies"
  let sr := route.Subrouter
  let sr : mux.Router MovieController.Handler :=
    { sr with routes := sr.routes ++
        [ (sr.HandleFunc "" .GetMovies).Methods ["GET"],
          (sr.HandleFunc "/\x7bid\x7d" .GetMovie).Methods ["GET"],
          (sr.HandleFunc "" .CreateMovie).Methods ["POST"],
          (sr.HandleFunc "/\x7bid\x7d" .UpdateMovie).Methods ["PUT"],
          (sr.HandleFunc "/\x7bid\x7d" .DeleteMovie).Methods ["DELETE"] ] }
  { main with routes := main.routes ++
      [{ route with matchers := route.matchers ++ [sr.matcher lib] }] }

/-- The function `InitializeMoviesPipeline`, for a service in place of
`NewMovieService(api.DB)` and the router of `mux.NewRouter()`, which `api.Start` and
the tests pass: the router after `setRouting`, serving a request with the handlers
of `NewMovieController(s)`. -/
def InitializeMoviesPipeline {σ : Type} (lib : mux.Package) (s : MovieService σ)
    (json : json.Package) (w : http.ResponseWriter) (req : http.ServerRequest)
    (p : Process σ) : http.ResponseWriter × Process σ :=
  (setRouting lib mux.NewRouter).ServeHTTP lib ((NewMovieController s).call json) w req p

/-! ## Theorems -/

/-- On the movies table `GetMovie` records its `SELECT` and returns the first row with
the id, or `sql.ErrNoRows` next to the zero Movie when there is none. -/
theorem Store.GetMovie_eq (st : Store) (id : Int) :
    Store.service.GetMovie id st =
      (match st.rows.filter (fun row => row.ID = id) with
        | [] => (Movie.mk 0 "", some sql.ErrNoRows)
        | row :: _ => (row, none),
       st.record "SELECT * FROM movies WHERE id = $1" [.int id]) := by
  simp only [Store.service, NewMovieService, service.GetMovie, sql.DB.QueryRow, Store.DB,
    Store.Query]
  cases h : st.rows.filter (fun row => row.ID = id) <;>
    simp [sql.Row.Scan, h]

/-- No row passes the filter on an id the table does not hold. -/
theorem Store.filter_eq_nil_of_not_hasID (st : Store) (id : Int) (h : st.hasID id = false) :
    st.rows.filter (fun row => row.ID = id) = [] := by
  simp only [Store.hasID, List.any_eq_false, decide_eq_true_eq] at h
  simp only [List.filter_eq_nil_iff, decide_eq_true_eq]
  exact h


/-- C1: `Validate` depends on the name only. For every identifier and every name it
returns no error exactly when the name is non-empty, and for the empty name it
returns the error made by `errors.New("Name is missing")`, whatever the identifier. -/
theorem C1_validate_iff_name_nonempty (id id2 : Int) (name : String) :
    ((Movie.mk id name).Validate = none ↔ name ≠ "") ∧
    (Movie.mk id "").Validate = some (error.errorString "Name is missing") ∧
    (Movie.mk id name).Validate = (Movie.mk id2 name).Validate := by
  refine ⟨?_, ?_, ?_⟩
  · by_cases h : name = "" <;> simp [Movie.Validate, h]
  · simp [Movie.Validate, errors.New]
  · simp [Movie.Validate]


/-- The first row with an id the table holds passes the filter. -/
theorem Store.filter_ne_nil_of_hasID (st : Store) (id : Int) (h : st.hasID id = true) :
    ∃ row rest, st.rows.filter (fun row => row.ID = id) = row :: rest := by
  simp only [Store.hasID, List.any_eq_true, decide_eq_true_eq] at h
  obtain ⟨row, hrow, hid⟩ := h
  cases hf : st.rows.filter (fun row => row.ID = id) with
  | nil =>
    rw [List.filter_eq_nil_iff] at hf
    exact absurd (by simpa using hid) (hf row hrow)
  | cons r rest => exact ⟨r, rest, rfl⟩

/-- C2: on a movies table with no row of id `m.ID`, `CreateMovie(m)` returns no error
and a following `GetMovie(m.ID)` returns no error and the Movie `m` itself. -/
theorem C2_create_then_get (st : Store) (m : Movie) (h : st.hasID m.ID = false) :
    (Store.service.CreateMovie m st).1 = none ∧
    (Store.service.GetMovie m.ID (Store.service.CreateMovie m st).2).1 = (m, none) := by
  have hget := Store.GetMovie_eq st m.ID
  rw [Store.filter_eq_nil_of_not_hasID st m.ID h] at hget
  have hcreate : Store.service.CreateMovie m st =
      (none, { rows := st.rows ++ [m],
               executed := (st.record "SELECT * FROM movies WHERE id = $1"
                 [.int m.ID]).executed ++
                 [{ query := "INSERT INTO movies (id, name) VALUES ($1, $2)",
                    args := [.int m.ID, .string m.Name] }] }) := by
    simp only [Store.service, NewMovieService, service.CreateMovie] at hget ⊢
    rw [hget]
    simp [Store.DB, Store.Exec, Store.record]
  refine ⟨by rw [hcreate], ?_⟩
  rw [hcreate, Store.GetMovie_eq]
  have hf : (st.rows ++ [m]).filter (fun row => row.ID = m.ID) = [m] := by
    rw [List.filter_append, Store.filter_eq_nil_of_not_hasID st m.ID h]
    simp
  simp only [hf]

/-- C2 at a concrete input: the table holds ids 1 and 3, and the Movie created has id 2. -/
theorem C2_create_then_get_witness :
    (Store.mk [⟨1, "Alien"⟩, ⟨3, "Heat"⟩] []).hasID 2 = false ∧
    (Store.service.CreateMovie ⟨2, "test2"⟩ (Store.mk [⟨1, "Alien"⟩, ⟨3, "Heat"⟩] [])).1 = none ∧
    (Store.service.GetMovie 2
      (Store.service.CreateMovie ⟨2, "test2"⟩ (Store.mk [⟨1, "Alien"⟩, ⟨3, "Heat"⟩] [])).2).1 =
      (⟨2, "test2"⟩, none) :=
  have h : (Store.mk [⟨1, "Alien"⟩, ⟨3, "Heat"⟩] []).hasID 2 = false := by decide
  ⟨h, C2_create_then_get (Store.mk [⟨1, "Alien"⟩, ⟨3, "Heat"⟩] []) ⟨2, "test2"⟩ h⟩

/-- C3: on a movies table that holds a row with id `m.ID`, `CreateMovie(m)` returns an
`ExistingRecordError`, the only statement it executes is the `SELECT` of the existence
check (no `INSERT`), and the rows of the table are the same as before, whatever the
name of `m` is. -/
theorem C3_create_existing_rejected (st : Store) (m : Movie) (h : st.hasID m.ID = true) :
    (Store.service.CreateMovie m st).1 =
      some (error.ExistingRecordError ("ID: " ++ fmt.int m.ID)) ∧
    (Store.service.CreateMovie m st).2.rows = st.rows ∧
    (Store.service.CreateMovie m st).2.executed = st.executed ++
      [{ query := "SELECT * FROM movies WHERE id = $1", args := [.int m.ID] }] := by
  have hget := Store.GetMovie_eq st m.ID
  obtain ⟨row, rest, hf⟩ := Store.filter_ne_nil_of_hasID st m.ID h
  rw [hf] at hget
  simp only [Store.service, NewMovieService, service.CreateMovie] at hget ⊢
  rw [hget]
  simp [Store.record]

/-- C3 at a concrete input: a first `CreateMovie` stores `(1, "Alien")` in an empty
table; a second one with the same id and another name is rejected and the row stays. -/
theorem C3_create_existing_rejected_witness :
    (Store.service.CreateMovie ⟨1, "Alien"⟩ (Store.mk [] [])).2.hasID 1 = true ∧
    (Store.service.CreateMovie ⟨1, "Aliens"⟩
      (Store.service.CreateMovie ⟨1, "Alien"⟩ (Store.mk [] [])).2).1 =
        some (error.ExistingRecordError "ID: 1") ∧
    (Store.service.CreateMovie ⟨1, "Aliens"⟩
      (Store.service.CreateMovie ⟨1, "Alien"⟩ (Store.mk [] [])).2).2.rows = [⟨1, "Alien"⟩] :=
  have h : (Store.service.CreateMovie ⟨1, "Alien"⟩ (Store.mk [] [])).2.hasID
      (Movie.mk 1 "Aliens").ID = true := by decide
  have hthm := C3_create_existing_rejected
    (Store.service.CreateMovie ⟨1, "Alien"⟩ (Store.mk [] [])).2 ⟨1, "Aliens"⟩ h
  ⟨h, hthm.1, hthm.2.1⟩

/-- C4: on a movies table with no row of the given id, `UpdateMovie(id, m)` returns a
`NotExistingRecordError`, the only statement it executes is the `SELECT` of the
existence check (no `UPDATE`), and the rows of the table are the same as before. -/
theorem C4_update_missing_rejected (st : Store) (id : Int) (m : Movie)
    (h : st.hasID id = false) :
    (∃ Identification, (Store.service.UpdateMovie id m st).1 =
      some (error.NotExistingRecordError Identification)) ∧
    (Store.service.UpdateMovie id m st).2.rows = st.rows ∧
    (Store.service.UpdateMovie id m st).2.executed = st.executed ++
      [{ query := "SELECT * FROM movies WHERE id = $1", args := [.int id] }] := by
  have hget := Store.GetMovie_eq st id
  rw [Store.filter_eq_nil_of_not_hasID st id h] at hget
  simp only [Store.service, NewMovieService, service.UpdateMovie] at hget ⊢
  rw [hget]
  simp [Store.record]

/-- C4 at a concrete input: the table holds id 2 only and the update addresses id 1. -/
theorem C4_update_missing_rejected_witness :
    (Store.mk [⟨2, "Heat"⟩] []).hasID 1 = false ∧
    (∃ Identification, (Store.service.UpdateMovie 1 ⟨1, "updated"⟩
      (Store.mk [⟨2, "Heat"⟩] [])).1 = some (error.NotExistingRecordError Identification)) ∧
    (Store.service.UpdateMovie 1 ⟨1, "updated"⟩ (Store.mk [⟨2, "Heat"⟩] [])).2.rows =
      [⟨2, "Heat"⟩] :=
  have h : (Store.mk [⟨2, "Heat"⟩] []).hasID 1 = false := by decide
  have hthm := C4_update_missing_rejected (Store.mk [⟨2, "Heat"⟩] []) 1 ⟨1, "updated"⟩ h
  ⟨h, hthm.1, hthm.2.1⟩

/-- C5: on every movies table and for every id, `DeleteMovie(id)` returns no error, the
only statement it executes is the `DELETE` (no existence check), and the rows left
are the rows whose id differs from `id`, in their order; when no row has the id, the
rows are the same as before. -/
theorem C5_delete_unconditional (st : Store) (id : Int) :
    (Store.service.DeleteMovie id st).1 = none ∧
    (Store.service.DeleteMovie id st).2.rows = st.rows.filter (fun row => ¬ row.ID = id) ∧
    (Store.service.DeleteMovie id st).2.executed = st.executed ++
      [{ query := "DELETE FROM movies WHERE id = $1", args := [.int id] }] ∧
    (st.hasID id = false → (Store.service.DeleteMovie id st).2.rows = st.rows) := by
  have hdel : Store.service.DeleteMovie id st =
      (none, { rows := st.rows.filter (fun row => ¬ row.ID = id),
               executed := st.executed ++
                 [{ query := "DELETE FROM movies WHERE id = $1", args := [.int id] }] }) := by
    simp [Store.service, NewMovieService, service.DeleteMovie, Store.DB, Store.Exec,
      Store.record]
  rw [hdel]
  refine ⟨rfl, rfl, rfl, ?_⟩
  intro h
  simp only [Store.hasID, List.any_eq_false, decide_eq_true_eq] at h
  simp only [List.filter_eq_self, decide_eq_true_eq]
  exact h

/-- C5 at a concrete input: deleting id 7 from a table that holds ids 1 and 2 succeeds
and leaves both rows. -/
theorem C5_delete_unconditional_witness :
    (Store.mk [⟨1, "Alien"⟩, ⟨2, "Heat"⟩] []).hasID 7 = false ∧
    (Store.service.DeleteMovie 7 (Store.mk [⟨1, "Alien"⟩, ⟨2, "Heat"⟩] [])).1 = none ∧
    (Store.service.DeleteMovie 7 (Store.mk [⟨1, "Alien"⟩, ⟨2, "Heat"⟩] [])).2.rows =
      [⟨1, "Alien"⟩, ⟨2, "Heat"⟩] :=
  have h : (Store.mk [⟨1, "Alien"⟩, ⟨2, "Heat"⟩] []).hasID 7 = false := by decide
  have hthm := C5_delete_unconditional (Store.mk [⟨1, "Alien"⟩, ⟨2, "Heat"⟩] []) 7
  ⟨h, hthm.1, hthm.2.2.2 h⟩

/-- The loop of `GetMovies` started with `result`: the error of the first row that
fails to scan next to an empty sequence, or `result` followed by all rows. -/
theorem service.GetMovies.loop_eq (qr : List sql.ScannedRow) (result : List Movie) :
    service.GetMovies.loop qr result =
      match qr.findSome? sql.ScannedRow.scanError with
      | some err => (some [], some err)
      | none => (some (result ++ qr.filterMap sql.ScannedRow.movie), none) := by
  induction qr generalizing result with
  | nil => simp [service.GetMovies.loop]
  | cons row qr ih =>
    cases row with
    | error err => simp [service.GetMovies.loop, sql.ScannedRow.scanError]
    | ok m =>
      rw [service.GetMovies.loop, ih]
      simp [sql.ScannedRow.scanError, sql.ScannedRow.movie]

/-- C6: `GetMovies` equals the reference. For every handle and state, its result is the
reference applied to the answer of the handle to `SELECT * FROM movies`, and the
state is the one that query leaves. On the movies table the result is the sequence
of all rows in storage order with no error, and for the empty table the empty,
non-nil sequence with no error. -/
theorem C6_GetMovies_refines_reference {σ : Type} (db : sql.DB σ) (st : σ) (table : Store) :
    ((NewMovieService db).GetMovies st).1 =
      GetMovies.reference (db.Query "SELECT * FROM movies" [] st).1 ∧
    ((NewMovieService db).GetMovies st).2 = (db.Query "SELECT * FROM movies" [] st).2 ∧
    (Store.service.GetMovies table).1 = (some table.rows, none) ∧
    (Store.service.GetMovies (Store.mk [] table.executed)).1 = (some [], none) := by
  have hgen : ∀ {τ : Type} (d : sql.DB τ) (s : τ),
      ((NewMovieService d).GetMovies s).1 =
        GetMovies.reference (d.Query "SELECT * FROM movies" [] s).1 := by
    intro τ d s
    simp only [NewMovieService, service.GetMovies]
    rcases hq : d.Query "SELECT * FROM movies" [] s with ⟨answer, s1⟩
    cases answer with
    | error err => simp [GetMovies.reference]
    | ok qr =>
      simp only [GetMovies.reference, service.GetMovies.loop_eq]
      cases qr.findSome? sql.ScannedRow.scanError <;> simp
  have hrows : ∀ rows : List Movie,
      GetMovies.reference (.ok (rows.map .ok)) = (some rows, none) := by
    intro rows
    have h1 : (rows.map (Except.ok : Movie → sql.ScannedRow)).findSome?
        sql.ScannedRow.scanError = none := by
      simp [List.findSome?_eq_none_iff, sql.ScannedRow.scanError]
    have h2 : (rows.map (Except.ok : Movie → sql.ScannedRow)).filterMap
        sql.ScannedRow.movie = rows := by
      have hsome : (sql.ScannedRow.movie ∘ (Except.ok : Movie → sql.ScannedRow)) = some := rfl
      rw [List.filterMap_map, hsome, List.filterMap_some]
    simp only [GetMovies.reference, h1, h2]
  have hstore : ∀ t : Store, (Store.service.GetMovies t).1 = (some t.rows, none) := by
    intro t
    rw [Store.service, hgen]
    simp only [Store.DB, Store.Query, if_true]
    exact hrows t.rows
  refine ⟨hgen db st, ?_, hstore table, hstore _⟩
  simp only [NewMovieService, service.GetMovies]
  rcases hq : db.Query "SELECT * FROM movies" [] st with ⟨answer, s1⟩
  cases answer <;> rfl




/-- A byte that `ParseUint` reads as a digit below ten is a decimal digit, with its value. -/
theorem strconv.digit_lt_ten (c : Char) (d : Nat) (h : strconv.digit c = some d) (hd : d < 10) :
    decimal.isDigit c = true ∧ d = c.toNat - 48 := by
  unfold strconv.digit at h
  split at h
  · rename_i hc
    simp only [Option.some.injEq] at h
    simp [decimal.isDigit, hc, h.symm]
  · split at h
    · simp only [Option.some.injEq] at h
      omega
    · simp at h

/-- A decimal digit is read by `ParseUint` as its value, which is below ten. -/
theorem strconv.digit_of_isDigit (c : Char) (h : decimal.isDigit c = true) :
    strconv.digit c = some (c.toNat - 48) ∧ c.toNat - 48 < 10 := by
  simp only [decimal.isDigit, decide_eq_true_eq] at h
  refine ⟨by simp [strconv.digit, h], ?_⟩
  omega

/-- The number read after `n` is at least `n`. -/
theorem decimal.le_value (cs : List Char) (n : Nat) : n ≤ decimal.value cs n := by
  induction cs generalizing n with
  | nil => simp [decimal.value]
  | cons c cs ih =>
    have := ih (10 * n + (c.toNat - 48))
    simp only [decimal.value]
    omega

/-- One step of the loop of `ParseUint` in base 10 over 64 bits, on a byte read as
the digit `d`. -/
theorem strconv.ParseUint.loop_cons (s0 : String) (c : Char) (cs : List Char) (n d : Nat)
    (hd : strconv.digit c = some d) :
    strconv.ParseUint.loop s0 10 1844674407370955162 18446744073709551615 (c :: cs) n =
      if 10 ≤ d then (0, some (strconv.syntaxError "ParseUint" s0))
      else if 1844674407370955162 ≤ n then
        (18446744073709551615, some (strconv.rangeError "ParseUint" s0))
      else if (n * 10 + d) % 18446744073709551616 < n * 10 ∨
          18446744073709551615 < (n * 10 + d) % 18446744073709551616 then
        (18446744073709551615, some (strconv.rangeError "ParseUint" s0))
      else strconv.ParseUint.loop s0 10 1844674407370955162 18446744073709551615 cs
        ((n * 10 + d) % 18446744073709551616) := by
  rw [strconv.ParseUint.loop]
  simp only [hd, ge_iff_le, gt_iff_lt, Nat.reducePow]

/-- The loop of `ParseUint` in base 10 over 64 bits ends without error only on
decimal digits that denote a number below `2 ^ 64`, and returns that number. -/
theorem strconv.ParseUint.loop_sound (s0 : String) (cs : List Char) (n : Nat)
    (h : (strconv.ParseUint.loop s0 10 1844674407370955162 18446744073709551615 cs n).2
      = none) :
    cs.all decimal.isDigit = true ∧
    (strconv.ParseUint.loop s0 10 1844674407370955162 18446744073709551615 cs n).1 =
      decimal.value cs n ∧
    (n < 18446744073709551616 → decimal.value cs n < 18446744073709551616) := by
  induction cs generalizing n with
  | nil => simp [strconv.ParseUint.loop, decimal.value]
  | cons c cs ih =>
    cases hd : strconv.digit c with
    | none => simp [strconv.ParseUint.loop, hd] at h
    | some d =>
      rw [strconv.ParseUint.loop_cons s0 c cs n d hd] at h ⊢
      by_cases h10 : 10 ≤ d
      · simp [h10] at h
      · rw [if_neg h10] at h ⊢
        by_cases hcut : 1844674407370955162 ≤ n
        · simp [hcut] at h
        · rw [if_neg hcut] at h ⊢
          by_cases hov : (n * 10 + d) % 18446744073709551616 < n * 10 ∨
              18446744073709551615 < (n * 10 + d) % 18446744073709551616
          · simp [hov] at h
          · rw [if_neg hov] at h ⊢
            obtain ⟨hdig, hval⟩ := strconv.digit_lt_ten c d hd (by omega)
            have hn1 : (n * 10 + d) % 18446744073709551616 = 10 * n + (c.toNat - 48) := by
              omega
            rw [hn1] at h ⊢
            obtain ⟨h1, h2, h3⟩ := ih _ h
            refine ⟨by simp [hdig, h1], by simp only [decimal.value, h2], ?_⟩
            intro _
            simp only [decimal.value]
            exact h3 (by omega)

/-- The loop of `ParseUint` in base 10 over 64 bits returns the number that decimal
digits denote, without error, when it is below `2 ^ 64`. -/
theorem strconv.ParseUint.loop_complete (s0 : String) (cs : List Char) (n : Nat)
    (hdig : cs.all decimal.isDigit = true)
    (hval : decimal.value cs n < 18446744073709551616) :
    strconv.ParseUint.loop s0 10 1844674407370955162 18446744073709551615 cs n =
      (decimal.value cs n, none) := by
  induction cs generalizing n with
  | nil => simp [strconv.ParseUint.loop, decimal.value]
  | cons c cs ih =>
    simp only [List.all_cons, Bool.and_eq_true] at hdig
    obtain ⟨hd, hlt⟩ := strconv.digit_of_isDigit c hdig.1
    simp only [decimal.value] at hval ⊢
    have hle := decimal.le_value cs (10 * n + (c.toNat - 48))
    rw [strconv.ParseUint.loop_cons s0 c cs n _ hd]
    have hn1 : (n * 10 + (c.toNat - 48)) % 18446744073709551616 = 10 * n + (c.toNat - 48) := by
      omega
    rw [if_neg (by omega), if_neg (by omega), if_neg (by omega), hn1]
    exact ih _ hdig.2 hval

/-- The loop of `ParseUint` in base 10 over 64 bits, when it ends with an error: a
syntax error, or a range error next to the value `2 ^ 64 - 1`. -/
theorem strconv.ParseUint.loop_error (s0 : String) (cs : List Char) (n : Nat) :
    (strconv.ParseUint.loop s0 10 1844674407370955162 18446744073709551615 cs n).2 = none ∨
    strconv.ParseUint.loop s0 10 1844674407370955162 18446744073709551615 cs n =
      (0, some (strconv.syntaxError "ParseUint" s0)) ∨
    strconv.ParseUint.loop s0 10 1844674407370955162 18446744073709551615 cs n =
      (18446744073709551615, some (strconv.rangeError "ParseUint" s0)) := by
  induction cs generalizing n with
  | nil => simp [strconv.ParseUint.loop]
  | cons c cs ih =>
    cases hd : strconv.digit c with
    | none => simp [strconv.ParseUint.loop, hd]
    | some d =>
      rw [strconv.ParseUint.loop_cons s0 c cs n d hd]
      split
      · simp
      · split
        · simp
        · split
          · simp
          · exact ih _

/-- The function `ParseUint` in base 10 with bit size 0 runs its loop from 0 on a
non-empty string. -/
theorem strconv.ParseUint_base10 (cs : List Char) (h : cs ≠ []) :
    strconv.ParseUint (String.mk cs) 10 0 =
      strconv.ParseUint.loop (String.mk cs) 10 1844674407370955162 18446744073709551615 cs 0 := by
  have hne : String.mk cs ≠ "" := by
    intro hs
    exact h (congrArg String.data hs)
  simp [strconv.ParseUint, hne, strconv.IntSize]

/-- The range check of `ParseInt` over 64 bits after no sign or a plus sign. -/
theorem strconv.ParseInt.signed_false (s0 : String) (un : Nat) :
    strconv.ParseInt.signed s0 false 0 un =
      if 9223372036854775808 ≤ un then
        (9223372036854775807, some (strconv.rangeError "ParseInt" s0))
      else (int64 un, none) := by
  simp [strconv.ParseInt.signed, strconv.IntSize, int64]

/-- The range check of `ParseInt` over 64 bits after a minus sign. -/
theorem strconv.ParseInt.signed_true (s0 : String) (un : Nat) :
    strconv.ParseInt.signed s0 true 0 un =
      if 9223372036854775808 < un then
        (-9223372036854775808, some (strconv.rangeError "ParseInt" s0))
      else (int64 (- int64 un), none) := by
  simp [strconv.ParseInt.signed, strconv.IntSize, int64]

/-- The conversion `int64` keeps a value below `2 ^ 63`. -/
theorem int64_of_lt (un : Nat) (h : un < 9223372036854775808) : int64 un = un := by
  unfold int64
  omega

/-- The negation in `int64` of a converted value up to `2 ^ 63` is its negative. -/
theorem int64_neg_int64 (un : Nat) (h : un ≤ 9223372036854775808) :
    int64 (- int64 un) = - (un : Int) := by
  unfold int64
  omega

/-- The range check of `ParseInt` over 64 bits accepts an unsigned value below `2 ^ 63`,
and `2 ^ 63` itself after a minus sign, and returns the signed value. -/
theorem strconv.ParseInt.signed_ok (s0 : String) (neg : Bool) (un : Nat)
    (h : (neg = false ∧ un < 9223372036854775808) ∨ (neg = true ∧ un ≤ 9223372036854775808)) :
    strconv.ParseInt.signed s0 neg 0 un = (if neg then - (un : Int) else (un : Int), none) := by
  rcases h with ⟨hneg, hun⟩ | ⟨hneg, hun⟩
  · subst hneg
    rw [strconv.ParseInt.signed_false, if_neg (by omega), int64_of_lt un hun]
    rfl
  · subst hneg
    rw [strconv.ParseInt.signed_true, if_neg (by omega), int64_neg_int64 un hun]
    rfl

/-- The range check of `ParseInt` over 64 bits rejects every other unsigned value. -/
theorem strconv.ParseInt.signed_error (s0 : String) (neg : Bool) (un : Nat)
    (h : ¬ ((neg = false ∧ un < 9223372036854775808) ∨
      (neg = true ∧ un ≤ 9223372036854775808))) :
    (strconv.ParseInt.signed s0 neg 0 un).2 = some (strconv.rangeError "ParseInt" s0) := by
  cases neg
  · have h1 : 9223372036854775808 ≤ un := by
      simp only [true_and, Bool.false_eq_true, false_and, or_false] at h
      omega
    rw [strconv.ParseInt.signed_false, if_pos h1]
  · have h1 : 9223372036854775808 < un := by
      simp only [true_and, Bool.true_eq_false, false_and, false_or] at h
      omega
    rw [strconv.ParseInt.signed_true, if_pos h1]

/-- After the sign, `ParseInt` in base 10 over 64 bits returns the signed value of one
or more decimal digits whose value is in range. -/
theorem strconv.ParseInt.unsigned_complete (s0 : String) (neg : Bool) (cs : List Char)
    (hne : cs ≠ []) (hdig : cs.all decimal.isDigit = true)
    (h : (neg = false ∧ decimal.value cs 0 < 9223372036854775808) ∨
      (neg = true ∧ decimal.value cs 0 ≤ 9223372036854775808)) :
    strconv.ParseInt.unsigned s0 neg (String.mk cs) 10 0 =
      (if neg then - (decimal.value cs 0 : Int) else (decimal.value cs 0 : Int), none) := by
  have hloop := strconv.ParseUint.loop_complete (String.mk cs) cs 0 hdig (by omega)
  rw [strconv.ParseInt.unsigned, strconv.ParseUint_base10 cs hne, hloop]
  exact strconv.ParseInt.signed_ok s0 neg _ h

/-- After the sign, `ParseInt` in base 10 over 64 bits returns without error only on
one or more decimal digits whose value is in range. -/
theorem strconv.ParseInt.unsigned_sound (s0 : String) (neg : Bool) (cs : List Char)
    (h : (strconv.ParseInt.unsigned s0 neg (String.mk cs) 10 0).2 = none) :
    cs ≠ [] ∧ cs.all decimal.isDigit = true ∧
    ((neg = false ∧ decimal.value cs 0 < 9223372036854775808) ∨
      (neg = true ∧ decimal.value cs 0 ≤ 9223372036854775808)) := by
  by_cases hne : cs = []
  · subst hne
    have hu : strconv.ParseUint (String.mk []) 10 0 =
        (0, some (strconv.syntaxError "ParseUint" (String.mk []))) := by
      have he : String.mk [] = "" := rfl
      simp [strconv.ParseUint, he]
    rw [strconv.ParseInt.unsigned, hu] at h
    simp [strconv.syntaxError] at h
  · rw [strconv.ParseInt.unsigned, strconv.ParseUint_base10 cs hne] at h
    rcases strconv.ParseUint.loop_error (String.mk cs) cs 0 with hok | herr | herr
    · obtain ⟨hdig, hval, hlt⟩ := strconv.ParseUint.loop_sound (String.mk cs) cs 0 hok
      have hlt := hlt (by omega)
      rw [strconv.ParseUint.loop_complete (String.mk cs) cs 0 hdig hlt] at h
      refine ⟨hne, hdig, ?_⟩
      by_contra hrange
      rw [strconv.ParseInt.signed_error s0 neg _ hrange] at h
      exact absurd h (by simp)
    · rw [herr] at h
      simp [strconv.syntaxError] at h
    · rw [herr] at h
      simp only [strconv.rangeError, ne_eq, not_true_eq_false, if_false] at h
      have hrange : ¬ ((neg = false ∧ 18446744073709551615 < 9223372036854775808) ∨
          (neg = true ∧ 18446744073709551615 ≤ 9223372036854775808)) := by omega
      rw [strconv.ParseInt.signed_error s0 neg _ hrange] at h
      exact absurd h (by simp)

/-- How `ParseInt` picks off the sign: the three cases of the first byte. -/
theorem strconv.ParseInt_sign (c : Char) (cs : List Char) (base bitSize : Nat) :
    strconv.ParseInt (String.mk (c :: cs)) base bitSize =
      if c = '+' then
        strconv.ParseInt.unsigned (String.mk (c :: cs)) false (String.mk cs) base bitSize
      else if c = '-' then
        strconv.ParseInt.unsigned (String.mk (c :: cs)) true (String.mk cs) base bitSize
      else
        strconv.ParseInt.unsigned (String.mk (c :: cs)) false (String.mk (c :: cs))
          base bitSize := by
  have hne : String.mk (c :: cs) ≠ "" := by
    intro hs
    exact absurd (congrArg String.data hs) (by simp)
  rw [strconv.ParseInt, if_neg hne]
  split
  · rename_i heq
    simp only [List.cons.injEq] at heq
    simp [heq.1, heq.2]
  · rename_i heq
    simp only [List.cons.injEq] at heq
    simp [heq.1, heq.2]
  · rename_i h1 h2
    have hp : c ≠ '+' := fun hc => h1 cs (by rw [hc])
    have hm : c ≠ '-' := fun hc => h2 cs (by rw [hc])
    simp [hp, hm]

/-- How a base-10 integer is read: the three cases of the first character. -/
theorem decimal.integer?_sign (c : Char) (cs : List Char) :
    decimal.integer? (String.mk (c :: cs)) =
      if c = '+' then (decimal.natural? cs).map (fun n : Nat => (n : Int))
      else if c = '-' then (decimal.natural? cs).map (fun n : Nat => - (n : Int))
      else (decimal.natural? (c :: cs)).map (fun n : Nat => (n : Int)) := by
  rw [decimal.integer?]
  split
  · rename_i heq
    simp only [List.cons.injEq] at heq
    simp [heq.1, heq.2]
  · rename_i heq
    simp only [List.cons.injEq] at heq
    simp [heq.1, heq.2]
  · rename_i h1 h2
    have hm : c ≠ '-' := fun hc => h1 cs (by rw [hc])
    have hp : c ≠ '+' := fun hc => h2 cs (by rw [hc])
    simp [hp, hm]

/-- The characters that denote a number are one or more decimal digits. -/
theorem decimal.natural?_eq_some (cs : List Char) (n : Nat) :
    decimal.natural? cs = some n ↔
      cs ≠ [] ∧ cs.all decimal.isDigit = true ∧ n = decimal.value cs 0 := by
  unfold decimal.natural?
  by_cases h : cs ≠ [] ∧ cs.all decimal.isDigit = true
  · rw [if_pos h]
    constructor
    · intro hn
      exact ⟨h.1, h.2, (Option.some.inj hn).symm⟩
    · rintro ⟨_, _, hn⟩
      rw [hn]
  · rw [if_neg h]
    constructor
    · intro hn
      exact absurd hn (by simp)
    · rintro ⟨h1, h2, _⟩
      exact absurd ⟨h1, h2⟩ h

/-- After the sign, `ParseInt` in base 10 over 64 bits returns without error exactly
on the digits of an integer between `-2^63` and `2^63 - 1`, and returns that integer. -/
theorem strconv.ParseInt.unsigned_iff (s0 : String) (neg : Bool) (ds : List Char)
    (f : Nat → Int) (hf : ∀ n : Nat, f n = if neg then - (n : Int) else (n : Int)) :
    ((strconv.ParseInt.unsigned s0 neg (String.mk ds) 10 0).2 = none ↔
      ∃ v, (decimal.natural? ds).map f = some v ∧
        -9223372036854775808 ≤ v ∧ v < 9223372036854775808) ∧
    ((strconv.ParseInt.unsigned s0 neg (String.mk ds) 10 0).2 = none →
      (decimal.natural? ds).map f =
        some (strconv.ParseInt.unsigned s0 neg (String.mk ds) 10 0).1) := by
  have hsound : (strconv.ParseInt.unsigned s0 neg (String.mk ds) 10 0).2 = none →
      decimal.natural? ds = some (decimal.value ds 0) ∧
      strconv.ParseInt.unsigned s0 neg (String.mk ds) 10 0 = (f (decimal.value ds 0), none) ∧
      -9223372036854775808 ≤ f (decimal.value ds 0) ∧
      f (decimal.value ds 0) < 9223372036854775808 := by
    intro h
    obtain ⟨hne, hdig, hr⟩ := strconv.ParseInt.unsigned_sound s0 neg ds h
    refine ⟨(decimal.natural?_eq_some ds _).2 ⟨hne, hdig, rfl⟩, ?_, ?_⟩
    · rw [strconv.ParseInt.unsigned_complete s0 neg ds hne hdig hr, hf]
    · rw [hf]
      rcases hr with ⟨hneg, hr⟩ | ⟨hneg, hr⟩ <;> subst hneg <;> simp <;> omega
  refine ⟨⟨?_, ?_⟩, ?_⟩
  · intro h
    obtain ⟨hnat, _, hlo, hhi⟩ := hsound h
    exact ⟨f (decimal.value ds 0), by rw [hnat]; rfl, hlo, hhi⟩
  · rintro ⟨v, hv, hlo, hhi⟩
    cases hnat : decimal.natural? ds with
    | none => rw [hnat] at hv; exact absurd hv (by simp)
    | some n =>
      rw [hnat] at hv
      obtain ⟨hne, hdig, hn⟩ := (decimal.natural?_eq_some ds n).1 hnat
      have hv2 : f n = v := by simpa using hv
      rw [hf] at hv2
      have hr : (neg = false ∧ decimal.value ds 0 < 9223372036854775808) ∨
          (neg = true ∧ decimal.value ds 0 ≤ 9223372036854775808) := by
        cases neg
        · left
          simp at hv2
          exact ⟨rfl, by omega⟩
        · right
          simp at hv2
          exact ⟨rfl, by omega⟩
      rw [strconv.ParseInt.unsigned_complete s0 neg ds hne hdig hr]
  · intro h
    obtain ⟨hnat, heq, _, _⟩ := hsound h
    rw [hnat, heq]
    rfl

/-- A string is a base-10 integer representable as an `int` when the integer it
denotes lies between `-2^63` and `2^63 - 1`. -/
theorem decimal.isInt_iff (s : String) :
    decimal.isInt s = true ↔
      ∃ v, decimal.integer? s = some v ∧
        -9223372036854775808 ≤ v ∧ v < 9223372036854775808 := by
  unfold decimal.isInt
  cases decimal.integer? s with
  | none => simp
  | some v => simp

/-- The function `strconv.ParseInt(s, 10, 0)` returns no error exactly on the base-10
integers representable as an `int`, and then returns the integer denoted. -/
theorem strconv.ParseInt_isInt (s : String) :
    ((strconv.ParseInt s 10 0).2 = none ↔ decimal.isInt s = true) ∧
    ((strconv.ParseInt s 10 0).2 = none →
      decimal.integer? s = some (strconv.ParseInt s 10 0).1) := by
  rw [decimal.isInt_iff]
  cases s with
  | mk data =>
    cases data with
    | nil =>
      have he : String.mk [] = "" := rfl
      simp [strconv.ParseInt, he, decimal.integer?, decimal.natural?, strconv.syntaxError]
    | cons c cs =>
      rw [strconv.ParseInt_sign, decimal.integer?_sign]
      by_cases hp : c = '+'
      · rw [if_pos hp, if_pos hp]
        exact strconv.ParseInt.unsigned_iff _ false cs _ (fun n => by simp)
      · rw [if_neg hp, if_neg hp]
        by_cases hm : c = '-'
        · rw [if_pos hm, if_pos hm]
          exact strconv.ParseInt.unsigned_iff _ true cs _ (fun n => by simp)
        · rw [if_neg hm, if_neg hm]
          exact strconv.ParseInt.unsigned_iff _ false (c :: cs) _ (fun n => by simp)

/-- A path segment that is not a base-10 integer representable as an `int` makes
`strconv.ParseInt(s, 10, 0)` return an error. -/
theorem strconv.ParseInt_error (s : String) (h : decimal.isInt s = false) :
    ∃ v err, strconv.ParseInt s 10 0 = (v, some err) := by
  cases hr : strconv.ParseInt s 10 0 with
  | mk v e =>
    cases e with
    | some err => exact ⟨v, err, rfl⟩
    | none =>
      have hok : (strconv.ParseInt s 10 0).2 = none := by rw [hr]
      have := (strconv.ParseInt_isInt s).1.1 hok
      rw [h] at this
      exact absurd this (by simp)

/-- The response `http.Error` leaves in a fresh recorder. -/
theorem http.Error_NewRecorder (message : String) (code : Nat) :
    http.Error httptest.NewRecorder message code =
      { Code := code, wroteHeader := true, Body := message ++ "\n" } := by
  simp [http.Error, http.ResponseWriter.Write, http.ResponseWriter.WriteHeader,
    httptest.NewRecorder]

/-- C7: each of the five handlers answers a request whose method is not its own with
status 405 and the body of `handleMethodNotAllowed`, and returns the state behind the
service as it was, for every service, every path id and every body; so the service
is not called (a service that records its calls has recorded none). -/
theorem C7_wrong_method_405 {σ : Type} (c : controller σ) (json : json.Package)
    (r : http.Request) (p : Process σ) :
    (r.Method ≠ "GET" →
      (c.GetMovies json httptest.NewRecorder r p).1 =
        { Code := 405, wroteHeader := true, Body := "Method not allowed\n" } ∧
      (c.GetMovies json httptest.NewRecorder r p).2.state = p.state) ∧
    (r.Method ≠ "GET" →
      (c.GetMovie json httptest.NewRecorder r p).1 =
        { Code := 405, wroteHeader := true, Body := "Method not allowed\n" } ∧
      (c.GetMovie json httptest.NewRecorder r p).2.state = p.state) ∧
    (r.Method ≠ "POST" →
      (c.CreateMovie json httptest.NewRecorder r p).1 =
        { Code := 405, wroteHeader := true, Body := "Method not allowed\n" } ∧
      (c.CreateMovie json httptest.NewRecorder r p).2.state = p.state) ∧
    (r.Method ≠ "PUT" →
      (c.UpdateMovie json httptest.NewRecorder r p).1 =
        { Code := 405, wroteHeader := true, Body := "Method not allowed\n" } ∧
      (c.UpdateMovie json httptest.NewRecorder r p).2.state = p.state) ∧
    (r.Method ≠ "DELETE" →
      (c.DeleteMovie httptest.NewRecorder r p).1 =
        { Code := 405, wroteHeader := true, Body := "Method not allowed\n" } ∧
      (c.DeleteMovie httptest.NewRecorder r p).2.state = p.state) := by
  have hresp : ∀ logMessage : String,
      handleMethodNotAllowed httptest.NewRecorder logMessage p =
        ({ Code := 405, wroteHeader := true, Body := "Method not allowed\n" },
         log.Println p [.string "[405 - Method Not Allowed] ", .string logMessage]) := by
    intro logMessage
    rw [handleMethodNotAllowed, http.Error_NewRecorder]
    rfl
  refine ⟨?_, ?_, ?_, ?_, ?_⟩ <;> intro hm
  · rw [controller.GetMovies, http.MethodGet, if_pos hm, hresp]
    exact ⟨rfl, rfl⟩
  · rw [controller.GetMovie, http.MethodGet, if_pos hm, hresp]
    exact ⟨rfl, rfl⟩
  · rw [controller.CreateMovie, http.MethodPost, if_pos hm, hresp]
    exact ⟨rfl, rfl⟩
  · rw [controller.UpdateMovie, http.MethodPut, if_pos hm, hresp]
    exact ⟨rfl, rfl⟩
  · rw [controller.DeleteMovie, http.MethodDelete, if_pos hm, hresp]
    exact ⟨rfl, rfl⟩

/-- C7 at concrete inputs: a `PATCH` request, whose method is none of the four allowed
ones, sent to each handler over the mock service, and the `GET` request of
`TestControllerCreateMovieInvalidMethodError` sent to `CreateMovie`. Each response is
405 and the mock has recorded no call. -/
theorem C7_wrong_method_405_witness :
    ("PATCH" ≠ "GET" ∧ "PATCH" ≠ "POST" ∧ "PATCH" ≠ "PUT" ∧ "PATCH" ≠ "DELETE" ∧
      "GET" ≠ "POST") ∧
    (((NewMovieController (mockService mock.failing)).GetMovies json.testPackage
        httptest.NewRecorder ⟨"PATCH", [("id", "1")], ""⟩ ⟨[], []⟩).1.Code = 405 ∧
      ((NewMovieController (mockService mock.failing)).GetMovies json.testPackage
        httptest.NewRecorder ⟨"PATCH", [("id", "1")], ""⟩ ⟨[], []⟩).2.state = []) ∧
    (((NewMovieController (mockService mock.failing)).GetMovie json.testPackage
        httptest.NewRecorder ⟨"PATCH", [("id", "1")], ""⟩ ⟨[], []⟩).1.Code = 405 ∧
      ((NewMovieController (mockService mock.failing)).GetMovie json.testPackage
        httptest.NewRecorder ⟨"PATCH", [("id", "1")], ""⟩ ⟨[], []⟩).2.state = []) ∧
    (((NewMovieController (mockService mock.failing)).UpdateMovie json.testPackage
        httptest.NewRecorder ⟨"PATCH", [("id", "1")], ""⟩ ⟨[], []⟩).1.Code = 405 ∧
      ((NewMovieController (mockService mock.failing)).UpdateMovie json.testPackage
        httptest.NewRecorder ⟨"PATCH", [("id", "1")], ""⟩ ⟨[], []⟩).2.state = []) ∧
    (((NewMovieController (mockService mock.failing)).DeleteMovie
        httptest.NewRecorder ⟨"PATCH", [("id", "1")], ""⟩ ⟨[], []⟩).1.Code = 405 ∧
      ((NewMovieController (mockService mock.failing)).DeleteMovie
        httptest.NewRecorder ⟨"PATCH", [("id", "1")], ""⟩ ⟨[], []⟩).2.state = []) ∧
    (((NewMovieController (mockService mock.failing)).CreateMovie json.testPackage
        httptest.NewRecorder ⟨"GET", [], ""⟩ ⟨[], []⟩).1.Code = 405 ∧
      ((NewMovieController (mockService mock.failing)).CreateMovie json.testPackage
        httptest.NewRecorder ⟨"GET", [], ""⟩ ⟨[], []⟩).2.state = []) :=
  have hpatch := C7_wrong_method_405 (NewMovieController (mockService mock.failing))
    json.testPackage ⟨"PATCH", [("id", "1")], ""⟩ ⟨[], []⟩
  have hget := C7_wrong_method_405 (NewMovieController (mockService mock.failing))
    json.testPackage ⟨"GET", [], ""⟩ ⟨[], []⟩
  have h1 := hpatch.1 (by decide)
  have h2 := hpatch.2.1 (by decide)
  have h4 := hpatch.2.2.2.1 (by decide)
  have h5 := hpatch.2.2.2.2 (by decide)
  have h3 := hget.2.2.1 (by decide)
  ⟨by decide, ⟨by rw [h1.1], h1.2⟩, ⟨by rw [h2.1], h2.2⟩, ⟨by rw [h4.1], h4.2⟩,
    ⟨by rw [h5.1], h5.2⟩, ⟨by rw [h3.1], h3.2⟩⟩

/-- The response and state `handleBadRequest` leaves from a fresh recorder. -/
theorem handleBadRequest_NewRecorder {σ : Type} (responseMessage : String)
    (logMessage : log.Operand) (p : Process σ) :
    (handleBadRequest httptest.NewRecorder responseMessage logMessage p).1 =
      { Code := 400, wroteHeader := true, Body := responseMessage ++ "\n" } ∧
    (handleBadRequest httptest.NewRecorder responseMessage logMessage p).2.state = p.state := by
  rw [handleBadRequest, http.Error_NewRecorder]
  exact ⟨rfl, rfl⟩

/-- C8: when the path id segment is not a base-10 integer representable as an `int`,
each of `GetMovie`, `UpdateMovie` and `DeleteMovie`, called with its own method,
answers with status 400 and the body `Invalid ID`, and returns the state behind the
service as it was, for every service; `UpdateMovie` does so for every body and every
JSON decoder. -/
theorem C8_bad_id_400 {σ : Type} (c : controller σ) (json : json.Package)
    (r : http.Request) (p : Process σ) (hid : decimal.isInt (mux.Vars r "id") = false) :
    (r.Method = "GET" →
      (c.GetMovie json httptest.NewRecorder r p).1 =
        { Code := 400, wroteHeader := true, Body := "Invalid ID\n" } ∧
      (c.GetMovie json httptest.NewRecorder r p).2.state = p.state) ∧
    (r.Method = "PUT" →
      (c.UpdateMovie json httptest.NewRecorder r p).1 =
        { Code := 400, wroteHeader := true, Body := "Invalid ID\n" } ∧
      (c.UpdateMovie json httptest.NewRecorder r p).2.state = p.state) ∧
    (r.Method = "DELETE" →
      (c.DeleteMovie httptest.NewRecorder r p).1 =
        { Code := 400, wroteHeader := true, Body := "Invalid ID\n" } ∧
      (c.DeleteMovie httptest.NewRecorder r p).2.state = p.state) := by
  obtain ⟨v, err, hparse⟩ := strconv.ParseInt_error (mux.Vars r "id") hid
  have hbad := handleBadRequest_NewRecorder "Invalid ID" (.errorText err) p
  refine ⟨?_, ?_, ?_⟩ <;> intro hm
  · rw [controller.GetMovie, http.MethodGet, if_neg (not_not.mpr hm), hparse]
    exact hbad
  · rw [controller.UpdateMovie, http.MethodPut, if_neg (not_not.mpr hm), hparse]
    exact hbad
  · rw [controller.DeleteMovie, http.MethodDelete, if_neg (not_not.mpr hm), hparse]
    exact hbad

/-- C8 at concrete inputs: `GET /not-an-int`, `PUT` with an empty id segment and a body
that does not decode, and `DELETE` with the id `9223372036854775808`, one above the
largest `int`, over the mock service: each response is 400 and the mock has recorded
no call. The segments `abc` and `1.5` are not base-10 integers either. -/
theorem C8_bad_id_400_witness :
    (decimal.isInt "not-an-int" = false ∧ decimal.isInt "" = false ∧
      decimal.isInt "9223372036854775808" = false ∧ decimal.isInt "abc" = false ∧
      decimal.isInt "1.5" = false) ∧
    (((NewMovieController (mockService mock.failing)).GetMovie json.testPackage
        httptest.NewRecorder ⟨"GET", [("id", "not-an-int")], ""⟩ ⟨[], []⟩).1.Code = 400 ∧
      ((NewMovieController (mockService mock.failing)).GetMovie json.testPackage
        httptest.NewRecorder ⟨"GET", [("id", "not-an-int")], ""⟩ ⟨[], []⟩).2.state = []) ∧
    (((NewMovieController (mockService mock.failing)).UpdateMovie json.testPackage
        httptest.NewRecorder ⟨"PUT", [("id", "")], "not a json"⟩ ⟨[], []⟩).1.Code = 400 ∧
      ((NewMovieController (mockService mock.failing)).UpdateMovie json.testPackage
        httptest.NewRecorder ⟨"PUT", [("id", "")], "not a json"⟩ ⟨[], []⟩).2.state = []) ∧
    (((NewMovieController (mockService mock.failing)).DeleteMovie
        httptest.NewRecorder ⟨"DELETE", [("id", "9223372036854775808")], ""⟩
        ⟨[], []⟩).1.Code = 400 ∧
      ((NewMovieController (mockService mock.failing)).DeleteMovie
        httptest.NewRecorder ⟨"DELETE", [("id", "9223372036854775808")], ""⟩
        ⟨[], []⟩).2.state = []) :=
  have hget := (C8_bad_id_400 (NewMovieController (mockService mock.failing))
    json.testPackage ⟨"GET", [("id", "not-an-int")], ""⟩ ⟨[], []⟩ (by decide)).1 rfl
  have hput := (C8_bad_id_400 (NewMovieController (mockService mock.failing))
    json.testPackage ⟨"PUT", [("id", "")], "not a json"⟩ ⟨[], []⟩ (by decide)).2.1 rfl
  have hdel := (C8_bad_id_400 (NewMovieController (mockService mock.failing))
    json.testPackage ⟨"DELETE", [("id", "9223372036854775808")], ""⟩ ⟨[], []⟩
    (by decide)).2.2 rfl
  ⟨by decide, ⟨by rw [hget.1], hget.2⟩, ⟨by rw [hput.1], hput.2⟩, ⟨by rw [hdel.1], hdel.2⟩⟩

/-- The error `parseValidMovie` returns is the one of the JSON decoder, or the fixed
error `invalid movie-object` after the validator has rejected the decoded Movie. -/
theorem parseValidMovie_error (json : json.Package) (r : http.Request) (err : error)
    (h : parseValidMovie json r = .error err) :
    json.Decode r.Body = .error err ∨
    ((∃ m, json.Decode r.Body = .ok m ∧ m.Name = "") ∧
      err = error.errorString "invalid movie-object") := by
  unfold parseValidMovie at h
  cases hd : json.Decode r.Body with
  | error e =>
    rw [hd] at h
    left
    exact congrArg _ (Except.error.inj h)
  | ok m =>
    rw [hd] at h
    right
    by_cases hn : m.Name = ""
    · simp only [Movie.Validate, hn, if_true, errors.New] at h
      exact ⟨⟨m, rfl, hn⟩, (Except.error.inj h).symm⟩
    · simp [Movie.Validate, hn] at h

/-- A body that does not decode, or decodes to a Movie with an empty name, makes
`parseValidMovie` return an error. -/
theorem parseValidMovie_bad_body (json : json.Package) (r : http.Request)
    (hbody : (∃ err, json.Decode r.Body = .error err) ∨
      (∃ m, json.Decode r.Body = .ok m ∧ m.Name = "")) :
    ∃ err, parseValidMovie json r = .error err := by
  rcases hbody with ⟨err, hd⟩ | ⟨m, hd, hn⟩
  · exact ⟨err, by simp [parseValidMovie, hd]⟩
  · exact ⟨errors.New "invalid movie-object", by simp [parseValidMovie, hd, Movie.Validate, hn]⟩

/-- C9: when the body does not decode into a Movie, or decodes to a Movie whose name is
empty, `CreateMovie` called with `POST`, and `UpdateMovie` called with `PUT` and an id
that parses, answer with status 400 and the same body `Invalid request body` in both
cases, and return the state behind the service as it was, for every service. The
error of `parseValidMovie` is the one of the decoder or the fixed `invalid
movie-object`; neither that text nor the response contains `Name is missing`. -/
theorem C9_bad_body_400 {σ : Type} (c : controller σ) (json : json.Package)
    (r : http.Request) (p : Process σ)
    (hbody : (∃ err, json.Decode r.Body = .error err) ∨
      (∃ m, json.Decode r.Body = .ok m ∧ m.Name = "")) :
    (r.Method = "POST" →
      (c.CreateMovie json httptest.NewRecorder r p).1 =
        { Code := 400, wroteHeader := true, Body := "Invalid request body\n" } ∧
      (c.CreateMovie json httptest.NewRecorder r p).2.state = p.state) ∧
    (r.Method = "PUT" → decimal.isInt (mux.Vars r "id") = true →
      (c.UpdateMovie json httptest.NewRecorder r p).1 =
        { Code := 400, wroteHeader := true, Body := "Invalid request body\n" } ∧
      (c.UpdateMovie json httptest.NewRecorder r p).2.state = p.state) ∧
    (∃ err, parseValidMovie json r = .error err ∧
      (json.Decode r.Body = .error err ∨ err = error.errorString "invalid movie-object")) ∧
    ¬ ("Name is missing".data <:+: "invalid movie-object".data) ∧
    ¬ ("Name is missing".data <:+: "Invalid request body\n".data) := by
  obtain ⟨err, hparse⟩ := parseValidMovie_bad_body json r hbody
  have hbad := handleBadRequest_NewRecorder "Invalid request body" (.errorText err) p
  refine ⟨?_, ?_, ⟨err, hparse, ?_⟩, by decide, by decide⟩
  · intro hm
    rw [controller.CreateMovie, http.MethodPost, if_neg (not_not.mpr hm), hparse]
    exact hbad
  · intro hm hid
    have hok := (strconv.ParseInt_isInt (mux.Vars r "id")).1.2 hid
    have hpair : strconv.ParseInt (mux.Vars r "id") 10 0 =
        ((strconv.ParseInt (mux.Vars r "id") 10 0).1, none) := Prod.ext rfl hok
    rw [controller.UpdateMovie, http.MethodPut, if_neg (not_not.mpr hm), hpair, hparse]
    exact hbad
  · rcases parseValidMovie_error json r err hparse with h | ⟨_, h⟩
    · exact Or.inl h
    · exact Or.inr h

/-- C9 at concrete inputs, over the mock service: the `POST` request of
`TestControllerCreateMovieBodyParsingError`, whose body decodes to a Movie without a
name, and the `PUT /1` request of `TestControllerUpdateMovieBodyParsingError`, whose
body does not decode. Each response is 400 with the same body and the mock has
recorded no call. -/
theorem C9_bad_body_400_witness :
    ((∃ m, json.testPackage.Decode "\x7b\"ID\":1\x7d" = .ok m ∧ m.Name = "") ∧
      (∃ err, json.testPackage.Decode "not a json" = .error err) ∧
      decimal.isInt "1" = true) ∧
    (((NewMovieController (mockService mock.failing)).CreateMovie json.testPackage
        httptest.NewRecorder ⟨"POST", [], "\x7b\"ID\":1\x7d"⟩ ⟨[], []⟩).1 =
        { Code := 400, wroteHeader := true, Body := "Invalid request body\n" } ∧
      ((NewMovieController (mockService mock.failing)).CreateMovie json.testPackage
        httptest.NewRecorder ⟨"POST", [], "\x7b\"ID\":1\x7d"⟩ ⟨[], []⟩).2.state = []) ∧
    (((NewMovieController (mockService mock.failing)).UpdateMovie json.testPackage
        httptest.NewRecorder ⟨"PUT", [("id", "1")], "not a json"⟩ ⟨[], []⟩).1 =
        { Code := 400, wroteHeader := true, Body := "Invalid request body\n" } ∧
      ((NewMovieController (mockService mock.failing)).UpdateMovie json.testPackage
        httptest.NewRecorder ⟨"PUT", [("id", "1")], "not a json"⟩ ⟨[], []⟩).2.state = []) :=
  have hnoname : ∃ m, json.testPackage.Decode "\x7b\"ID\":1\x7d" = .ok m ∧ m.Name = "" :=
    ⟨Movie.mk 1 "", rfl, rfl⟩
  have hnojson : ∃ err, json.testPackage.Decode "not a json" = .error err :=
    ⟨errors.New "invalid character 'o' in literal null (expecting 'u')", rfl⟩
  have hid : decimal.isInt "1" = true := by decide
  ⟨⟨hnoname, hnojson, hid⟩,
    (C9_bad_body_400 (NewMovieController (mockService mock.failing)) json.testPackage
      ⟨"POST", [], "\x7b\"ID\":1\x7d"⟩ ⟨[], []⟩ (Or.inr hnoname)).1 rfl,
    (C9_bad_body_400 (NewMovieController (mockService mock.failing)) json.testPackage
      ⟨"PUT", [("id", "1")], "not a json"⟩ ⟨[], []⟩ (Or.inl hnojson)).2.1 rfl hid⟩

/-- The response `handleServerError` leaves in a fresh recorder does not depend on the
error it is given. -/
theorem handleServerError_NewRecorder {σ : Type} (err : error) (p : Process σ) :
    (handleServerError httptest.NewRecorder err "Service unreachable" p).1 =
      { Code := 500, wroteHeader := true, Body := "Service unreachable\n" } := by
  rw [handleServerError, http.Error_NewRecorder]
  rfl

/-- C10, amended: for each of the five handlers and every request that passes its
method, id and body checks, whenever the call of the service returns an error,
whichever it is, the response is status 500 with the message `Service unreachable`,
with a capital `S`, which `http.Error` writes followed by a line feed. The response
is this one value for every error, so any two service errors give the same status
and body. -/
theorem C10_service_error_500 {σ : Type} (c : controller σ) (json : json.Package)
    (r : http.Request) (p : Process σ) :
    (r.Method = "GET" →
      ∀ movies err st, c.service.GetMovies p.state = ((movies, some err), st) →
      (c.GetMovies json httptest.NewRecorder r p).1 =
        { Code := 500, wroteHeader := true, Body := "Service unreachable\n" }) ∧
    (r.Method = "GET" →
      ∀ id, strconv.ParseInt (mux.Vars r "id") 10 0 = (id, none) →
      ∀ movie err st, c.service.GetMovie id p.state = ((movie, some err), st) →
      (c.GetMovie json httptest.NewRecorder r p).1 =
        { Code := 500, wroteHeader := true, Body := "Service unreachable\n" }) ∧
    (r.Method = "POST" →
      ∀ m, parseValidMovie json r = .ok m →
      ∀ err st, c.service.CreateMovie m p.state = (some err, st) →
      (c.CreateMovie json httptest.NewRecorder r p).1 =
        { Code := 500, wroteHeader := true, Body := "Service unreachable\n" }) ∧
    (r.Method = "PUT" →
      ∀ id, strconv.ParseInt (mux.Vars r "id") 10 0 = (id, none) →
      ∀ m, parseValidMovie json r = .ok m →
      ∀ err st, c.service.UpdateMovie id m p.state = (some err, st) →
      (c.UpdateMovie json httptest.NewRecorder r p).1 =
        { Code := 500, wroteHeader := true, Body := "Service unreachable\n" }) ∧
    (r.Method = "DELETE" →
      ∀ id, strconv.ParseInt (mux.Vars r "id") 10 0 = (id, none) →
      ∀ err st, c.service.DeleteMovie id p.state = (some err, st) →
      (c.DeleteMovie httptest.NewRecorder r p).1 =
        { Code := 500, wroteHeader := true, Body := "Service unreachable\n" }) := by
  refine ⟨?_, ?_, ?_, ?_, ?_⟩
  · intro hm movies err st hsvc
    rw [controller.GetMovies, http.MethodGet, if_neg (not_not.mpr hm), hsvc]
    exact handleServerError_NewRecorder err _
  · intro hm id hid movie err st hsvc
    rw [controller.GetMovie, http.MethodGet, if_neg (not_not.mpr hm), hid]
    simp only [hsvc]
    exact handleServerError_NewRecorder err _
  · intro hm m hbody err st hsvc
    rw [controller.CreateMovie, http.MethodPost, if_neg (not_not.mpr hm), hbody]
    simp only [hsvc]
    exact handleServerError_NewRecorder err _
  · intro hm id hid m hbody err st hsvc
    rw [controller.UpdateMovie, http.MethodPut, if_neg (not_not.mpr hm), hid, hbody]
    simp only [hsvc]
    exact handleServerError_NewRecorder err _
  · intro hm id hid err st hsvc
    rw [controller.DeleteMovie, http.MethodDelete, if_neg (not_not.mpr hm), hid]
    simp only [hsvc]
    exact handleServerError_NewRecorder err _

/-- C10 at concrete inputs. Over the mock service set to fail: the `GET /` request of
`TestControllerGetMoviesServiceError` and the `DELETE /1` request of
`TestControllerDeleteMovieServiceError`. Over the service on the movies table:
`GET /1` on an empty table (`sql.ErrNoRows`), `POST` of a Movie whose id the table
holds (`ExistingRecordError`), and `PUT /1` on an empty table
(`NotExistingRecordError`). The five responses are the same. -/
theorem C10_service_error_500_witness :
    ((NewMovieController (mockService mock.failing)).GetMovies json.testPackage
        httptest.NewRecorder ⟨"GET", [], ""⟩ ⟨[], []⟩).1 =
      { Code := 500, wroteHeader := true, Body := "Service unreachable\n" } ∧
    ((NewMovieController Store.service).GetMovie json.testPackage
        httptest.NewRecorder ⟨"GET", [("id", "1")], ""⟩ ⟨Store.mk [] [], []⟩).1 =
      { Code := 500, wroteHeader := true, Body := "Service unreachable\n" } ∧
    ((NewMovieController Store.service).CreateMovie json.testPackage
        httptest.NewRecorder ⟨"POST", [], "\x7b\"id\":1,\"name\":\"test\"\x7d"⟩
        ⟨Store.mk [⟨1, "Alien"⟩] [], []⟩).1 =
      { Code := 500, wroteHeader := true, Body := "Service unreachable\n" } ∧
    ((NewMovieController Store.service).UpdateMovie json.testPackage
        httptest.NewRecorder ⟨"PUT", [("id", "1")], "\x7b\"name\":\"Aliens\"\x7d"⟩
        ⟨Store.mk [] [], []⟩).1 =
      { Code := 500, wroteHeader := true, Body := "Service unreachable\n" } ∧
    ((NewMovieController (mockService mock.failing)).DeleteMovie
        httptest.NewRecorder ⟨"DELETE", [("id", "1")], ""⟩ ⟨[], []⟩).1 =
      { Code := 500, wroteHeader := true, Body := "Service unreachable\n" } :=
  ⟨(C10_service_error_500 (NewMovieController (mockService mock.failing)) json.testPackage
      ⟨"GET", [], ""⟩ ⟨[], []⟩).1 rfl
      (some []) (errors.New "test-error-message") [.GetMovies] rfl,
    (C10_service_error_500 (NewMovieController Store.service) json.testPackage
      ⟨"GET", [("id", "1")], ""⟩ ⟨Store.mk [] [], []⟩).2.1 rfl 1 (by decide)
      (Movie.mk 0 "") sql.ErrNoRows
      (Store.mk [] [⟨"SELECT * FROM movies WHERE id = $1", [.int 1]⟩]) (by decide),
    (C10_service_error_500 (NewMovieController Store.service) json.testPackage
      ⟨"POST", [], "\x7b\"id\":1,\"name\":\"test\"\x7d"⟩
      ⟨Store.mk [⟨1, "Alien"⟩] [], []⟩).2.2.1 rfl (Movie.mk 1 "test") rfl
      (error.ExistingRecordError "ID: 1")
      (Store.mk [⟨1, "Alien"⟩] [⟨"SELECT * FROM movies WHERE id = $1", [.int 1]⟩])
      (by decide),
    (C10_service_error_500 (NewMovieController Store.service) json.testPackage
      ⟨"PUT", [("id", "1")], "\x7b\"name\":\"Aliens\"\x7d"⟩
      ⟨Store.mk [] [], []⟩).2.2.2.1 rfl 1 (by decide) (Movie.mk 0 "Aliens") rfl
      (error.NotExistingRecordError "ID: 0")
      (Store.mk [] [⟨"SELECT * FROM movies WHERE id = $1", [.int 1]⟩]) (by decide),
    (C10_service_error_500 (NewMovieController (mockService mock.failing)) json.testPackage
      ⟨"DELETE", [("id", "1")], ""⟩ ⟨[], []⟩).2.2.2.2 rfl 1 (by decide)
      (errors.New "test-error-message") [.DeleteMovie 1] rfl⟩

/-- C10, as stated, fails on the message: the `POST` request of
`TestControllerCreateMovieServiceError`, sent to the handler over a mock service that
returns an error, is answered with status 500 and the body `Service unreachable`
followed by a line feed, with a capital `S`. The body is not the text
`service unreachable`, and this text occurs nowhere in it. -/
theorem C10_message_counterexample :
    ((NewMovieController (mockService mock.failing)).CreateMovie json.testPackage
        httptest.NewRecorder ⟨"POST", [], "\x7b\"id\":1,\"name\":\"test\"\x7d"⟩ ⟨[], []⟩).1 =
      { Code := 500, wroteHeader := true, Body := "Service unreachable\n" } ∧
    ((NewMovieController (mockService mock.failing)).CreateMovie json.testPackage
        httptest.NewRecorder ⟨"POST", [], "\x7b\"id\":1,\"name\":\"test\"\x7d"⟩
        ⟨[], []⟩).1.Body ≠ "service unreachable" ∧
    ¬ "service unreachable".data <:+:
      ((NewMovieController (mockService mock.failing)).CreateMovie json.testPackage
        httptest.NewRecorder ⟨"POST", [], "\x7b\"id\":1,\"name\":\"test\"\x7d"⟩
        ⟨[], []⟩).1.Body.data ∧
    ((NewMovieController (mockService mock.failing)).CreateMovie json.testPackage
        httptest.NewRecorder ⟨"POST", [], "\x7b\"id\":1,\"name\":\"test\"\x7d"⟩
        ⟨[], []⟩).2.state = [mock.Call.CreateMovie ⟨1, "test"⟩] := by
  refine ⟨?_, ?_, ?_, ?_⟩ <;> decide

/-- A string whose characters all are in `htmlSafeSet` is marshalled as it is, between
double quotes. -/
theorem json.encodeString_htmlSafe (enc : json.Package) (s : String)
    (h : ∀ ch ∈ s.data, json.htmlSafe ch = true) :
    enc.encodeString s = "\"" ++ s ++ "\"" := by
  have key : ∀ l : List Char, (∀ ch ∈ l, json.htmlSafe ch = true) →
      (l.map enc.encodeChar).flatten = l := by
    intro l
    induction l with
    | nil => intro _; rfl
    | cons ch l ih =>
      intro hl
      have hch := hl ch (List.mem_cons_self _ _)
      have hlt : ch.toNat < 128 := by
        simp only [json.htmlSafe, decide_eq_true_eq] at hch
        exact hch.2.1
      rw [List.map_cons, List.flatten_cons, ih (fun x hx => hl x (List.mem_cons_of_mem _ hx))]
      simp [json.Package.encodeChar, hlt, hch]
  rw [json.Package.encodeString, key s.data h]

/-- C12, the code at the failing input: `UpdateMovie(1, m)` with `m.ID = 0` (a body
without an id) on an empty movies table looks up id 1 and returns a
`NotExistingRecordError` whose `Identification` is `ID: 0`, not `ID: 1`. For every
handle, id and Movie, when the existence check fails the `Identification` is built
from `m.ID`, the id in the body, and not from the `id` that was looked up. -/
theorem C12_update_error_names_body_id {σ : Type} (db : sql.DB σ) (id : Int) (m : Movie)
    (st : σ) :
    (((NewMovieService db).GetMovie id st).1.2 ≠ none →
      ((NewMovieService db).UpdateMovie id m st).1 =
        some (error.NotExistingRecordError ("ID: " ++ fmt.int m.ID))) ∧
    (Store.service.UpdateMovie 1 ⟨0, "Aliens"⟩ (Store.mk [] [])).1 =
      some (error.NotExistingRecordError "ID: 0") ∧
    (Store.service.UpdateMovie 1 ⟨0, "Aliens"⟩ (Store.mk [] [])).1 ≠
      some (error.NotExistingRecordError ("ID: " ++ fmt.int 1)) := by
  refine ⟨?_, by decide, by decide⟩
  intro hget
  simp only [NewMovieService, service.UpdateMovie] at hget ⊢
  rcases hres : service.GetMovie { db := db } id st with ⟨⟨movie, err⟩, st1⟩
  rw [hres] at hget
  cases err with
  | none => exact absurd rfl hget
  | some e => rfl

/-- What `CreateMovie` does on the movies table: nothing but the `SELECT` when the id is
held, otherwise the `INSERT` of the row at the end. -/
theorem Store.CreateMovie_eq (st : Store) (m : Movie) :
    Store.service.CreateMovie m st =
      if st.hasID m.ID = true then
        (some (error.ExistingRecordError ("ID: " ++ fmt.int m.ID)),
         st.record "SELECT * FROM movies WHERE id = $1" [.int m.ID])
      else
        (none, { rows := st.rows ++ [m],
                 executed := st.executed ++
                   [{ query := "SELECT * FROM movies WHERE id = $1", args := [.int m.ID] },
                    { query := "INSERT INTO movies (id, name) VALUES ($1, $2)",
                      args := [.int m.ID, .string m.Name] }] }) := by
  have hget := Store.GetMovie_eq st m.ID
  by_cases h : st.hasID m.ID = true
  · obtain ⟨row, rest, hf⟩ := Store.filter_ne_nil_of_hasID st m.ID h
    rw [hf] at hget
    rw [if_pos h]
    simp only [Store.service, NewMovieService, service.CreateMovie] at hget ⊢
    rw [hget]
  · have hfalse : st.hasID m.ID = false := by simpa using h
    rw [Store.filter_eq_nil_of_not_hasID st m.ID hfalse] at hget
    rw [if_neg h]
    simp only [Store.service, NewMovieService, service.CreateMovie] at hget ⊢
    rw [hget]
    simp [Store.DB, Store.Exec, Store.record]

/-- What `UpdateMovie` does on the movies table: nothing but the `SELECT` when the id is
not held, otherwise the `UPDATE` of the name of the rows with the id. -/
theorem Store.UpdateMovie_eq (st : Store) (id : Int) (m : Movie) :
    Store.service.UpdateMovie id m st =
      if st.hasID id = true then
        (none, { rows := st.rows.map (fun row =>
                   if row.ID = id then Movie.mk row.ID m.Name else row),
                 executed := st.executed ++
                   [{ query := "SELECT * FROM movies WHERE id = $1", args := [.int id] },
                    { query := "UPDATE movies SET name = $1 WHERE id = $2",
                      args := [.string m.Name, .int id] }] })
      else
        (some (error.NotExistingRecordError ("ID: " ++ fmt.int m.ID)),
         st.record "SELECT * FROM movies WHERE id = $1" [.int id]) := by
  have hget := Store.GetMovie_eq st id
  by_cases h : st.hasID id = true
  · obtain ⟨row, rest, hf⟩ := Store.filter_ne_nil_of_hasID st id h
    rw [hf] at hget
    rw [if_pos h]
    simp only [Store.service, NewMovieService, service.UpdateMovie] at hget ⊢
    rw [hget]
    simp [Store.DB, Store.Exec, Store.record]
  · have hfalse : st.hasID id = false := by simpa using h
    rw [Store.filter_eq_nil_of_not_hasID st id hfalse] at hget
    rw [if_neg h]
    simp only [Store.service, NewMovieService, service.UpdateMovie] at hget ⊢
    rw [hget]

/-- What `DeleteMovie` does on the movies table. -/
theorem Store.DeleteMovie_eq (st : Store) (id : Int) :
    Store.service.DeleteMovie id st =
      (none, { rows := st.rows.filter (fun row => ¬ row.ID = id),
               executed := st.executed ++
                 [{ query := "DELETE FROM movies WHERE id = $1", args := [.int id] }] }) := by
  simp [Store.service, NewMovieService, service.DeleteMovie, Store.DB, Store.Exec,
    Store.record]

/-- Setting the name of the rows with one id leaves the ids of all rows as they were. -/
theorem Store.map_rename_ids (rows : List Movie) (id : Int) (name : String) :
    (rows.map (fun row => if row.ID = id then Movie.mk row.ID name else row)).map Movie.ID =
      rows.map Movie.ID := by
  rw [List.map_map]
  apply List.map_congr_left
  intro row _
  by_cases h : row.ID = id <;> simp [h]

/-- C13: on a movies table that holds a row with the given id, `UpdateMovie(id, m)`
returns no error and the rows afterwards are the rows before, in the same order, with
the name of each row of that id set to `m.Name`: the ids of all rows are as before,
so no row is added or removed and the other rows are unchanged, and `m.ID` plays no
part (any other id in its place gives the same result). -/
theorem C13_update_changes_name_only (st : Store) (id : Int) (m : Movie)
    (h : st.hasID id = true) :
    (Store.service.UpdateMovie id m st).1 = none ∧
    (Store.service.UpdateMovie id m st).2.rows =
      st.rows.map (fun row => if row.ID = id then Movie.mk row.ID m.Name else row) ∧
    (Store.service.UpdateMovie id m st).2.rows.map Movie.ID = st.rows.map Movie.ID ∧
    (Store.service.UpdateMovie id m st).2.rows.length = st.rows.length ∧
    (∀ other : Int, Store.service.UpdateMovie id (Movie.mk other m.Name) st =
      Store.service.UpdateMovie id m st) := by
  have hother : ∀ other : Int, Store.service.UpdateMovie id (Movie.mk other m.Name) st =
      Store.service.UpdateMovie id m st := by
    intro other
    rw [Store.UpdateMovie_eq, Store.UpdateMovie_eq, if_pos h, if_pos h]
  rw [Store.UpdateMovie_eq, if_pos h]
  refine ⟨rfl, rfl, Store.map_rename_ids _ _ _, by simp, ?_⟩
  intro other
  have := hother other
  rw [Store.UpdateMovie_eq st id m, if_pos h] at this
  exact this

/-- C13 at a concrete input, the update of `testIntegrationUpdate` with another id in
the body: the table holds ids 1 and 2, and `UpdateMovie(1, (7, "updated"))` renames
row 1 and leaves row 2. -/
theorem C13_update_changes_name_only_witness :
    (Store.mk [⟨1, "test"⟩, ⟨2, "Heat"⟩] []).hasID 1 = true ∧
    (Store.service.UpdateMovie 1 ⟨7, "updated"⟩ (Store.mk [⟨1, "test"⟩, ⟨2, "Heat"⟩] [])).1 =
      none ∧
    (Store.service.UpdateMovie 1 ⟨7, "updated"⟩
      (Store.mk [⟨1, "test"⟩, ⟨2, "Heat"⟩] [])).2.rows = [⟨1, "updated"⟩, ⟨2, "Heat"⟩] :=
  have h : (Store.mk [⟨1, "test"⟩, ⟨2, "Heat"⟩] []).hasID 1 = true := by decide
  have hthm := C13_update_changes_name_only (Store.mk [⟨1, "test"⟩, ⟨2, "Heat"⟩] []) 1
    ⟨7, "updated"⟩ h
  ⟨h, hthm.1, hthm.2.1⟩

/-- Reading the movies table leaves its rows as they were. -/
theorem Store.read_rows (st : Store) (id : Int) :
    (Store.service.GetMovies st).2.rows = st.rows ∧
    (Store.service.GetMovie id st).2.rows = st.rows := by
  refine ⟨?_, by rw [Store.GetMovie_eq]; rfl⟩
  simp [Store.service, NewMovieService, service.GetMovies, Store.DB, Store.Query, Store.record]

/-- The table holds no row of an id exactly when the id is not among the ids of its rows. -/
theorem Store.hasID_eq_false_iff (st : Store) (id : Int) :
    st.hasID id = false ↔ id ∉ st.rows.map Movie.ID := by
  simp only [Store.hasID, List.any_eq_false, decide_eq_true_eq, List.mem_map, not_exists,
    not_and]

/-- C15: on a movies table whose rows have pairwise distinct ids, each of the five
operations of the service leaves a table whose rows have pairwise distinct ids; and
`CreateMovie(m)` either leaves the rows as they were or, when no row has the id
`m.ID`, adds the row `m` at the end. -/
theorem C15_ids_stay_distinct (st : Store) (id : Int) (m : Movie)
    (h : (st.rows.map Movie.ID).Nodup) :
    ((Store.service.GetMovies st).2.rows.map Movie.ID).Nodup ∧
    ((Store.service.GetMovie id st).2.rows.map Movie.ID).Nodup ∧
    ((Store.service.CreateMovie m st).2.rows.map Movie.ID).Nodup ∧
    ((Store.service.UpdateMovie id m st).2.rows.map Movie.ID).Nodup ∧
    ((Store.service.DeleteMovie id st).2.rows.map Movie.ID).Nodup ∧
    ((Store.service.CreateMovie m st).2.rows = st.rows ∨
      (st.hasID m.ID = false ∧ (Store.service.CreateMovie m st).2.rows = st.rows ++ [m])) := by
  refine ⟨?_, ?_, ?_, ?_, ?_, ?_⟩
  · rw [(Store.read_rows st id).1]
    exact h
  · rw [(Store.read_rows st id).2]
    exact h
  · rw [Store.CreateMovie_eq]
    by_cases hid : st.hasID m.ID = true
    · rw [if_pos hid]
      exact h
    · rw [if_neg hid]
      have hfalse : st.hasID m.ID = false := by simpa using hid
      have hnot := (Store.hasID_eq_false_iff st m.ID).1 hfalse
      simp only [List.map_append, List.map_cons, List.map_nil]
      exact List.Nodup.append h (List.nodup_singleton _)
        (List.disjoint_singleton.2 hnot)
  · rw [Store.UpdateMovie_eq]
    by_cases hid : st.hasID id = true
    · rw [if_pos hid]
      simp only [Store.map_rename_ids]
      exact h
    · rw [if_neg hid]
      exact h
  · rw [Store.DeleteMovie_eq]
    exact List.Nodup.sublist (List.Sublist.map _ (List.filter_sublist _)) h
  · rw [Store.CreateMovie_eq]
    by_cases hid : st.hasID m.ID = true
    · rw [if_pos hid]
      exact Or.inl rfl
    · rw [if_neg hid]
      exact Or.inr ⟨by simpa using hid, rfl⟩

/-- C15 at a concrete input: a table with ids 1 and 2; creating id 1 again leaves the
rows as they were, creating id 3 adds one row, and the ids stay distinct. -/
theorem C15_ids_stay_distinct_witness :
    ((Store.mk [⟨1, "Alien"⟩, ⟨2, "Heat"⟩] []).rows.map Movie.ID).Nodup ∧
    (Store.service.CreateMovie ⟨1, "Aliens"⟩
      (Store.mk [⟨1, "Alien"⟩, ⟨2, "Heat"⟩] [])).2.rows = [⟨1, "Alien"⟩, ⟨2, "Heat"⟩] ∧
    ((Store.service.CreateMovie ⟨3, "Ran"⟩
      (Store.mk [⟨1, "Alien"⟩, ⟨2, "Heat"⟩] [])).2.rows.map Movie.ID).Nodup ∧
    ((Store.service.DeleteMovie 2
      (Store.mk [⟨1, "Alien"⟩, ⟨2, "Heat"⟩] [])).2.rows.map Movie.ID).Nodup :=
  have h : ((Store.mk [⟨1, "Alien"⟩, ⟨2, "Heat"⟩] []).rows.map Movie.ID).Nodup := by decide
  ⟨h, by decide,
    (C15_ids_stay_distinct (Store.mk [⟨1, "Alien"⟩, ⟨2, "Heat"⟩] []) 2 ⟨3, "Ran"⟩ h).2.2.1,
    (C15_ids_stay_distinct (Store.mk [⟨1, "Alien"⟩, ⟨2, "Heat"⟩] []) 2 ⟨3, "Ran"⟩
      h).2.2.2.2.1⟩

/-- A Movie that `parseValidMovie` returns has passed `Validate`: its name is not empty. -/
theorem parseValidMovie_ok (json : json.Package) (r : http.Request) (m : Movie)
    (h : parseValidMovie json r = .ok m) : m.Validate = none ∧ m.Name ≠ "" := by
  unfold parseValidMovie at h
  cases hd : json.Decode r.Body with
  | error e => rw [hd] at h; exact absurd h (by simp)
  | ok m1 =>
    rw [hd] at h
    by_cases hn : m1.Name = ""
    · simp [Movie.Validate, hn] at h
    · simp only [Movie.Validate, hn, if_false] at h
      have hm : m1 = m := Except.ok.inj h
      subst hm
      exact ⟨by simp [Movie.Validate, hn], hn⟩

/-- The state a handler leaves behind the service: the state it found, or the state
left by the one call of the service it made, with a Movie from `parseValidMovie` when
the call is `CreateMovie` or `UpdateMovie`. -/
theorem controller.call_state {σ : Type} (c : controller σ) (json : json.Package)
    (h : MovieController.Handler) (w : http.ResponseWriter) (r : http.Request)
    (p : Process σ) :
    (c.call json h w r p).2.state = p.state ∨
    (c.call json h w r p).2.state = (c.service.GetMovies p.state).2 ∨
    (∃ id, (c.call json h w r p).2.state = (c.service.GetMovie id p.state).2) ∨
    (∃ m, parseValidMovie json r = .ok m ∧
      (c.call json h w r p).2.state = (c.service.CreateMovie m p.state).2) ∨
    (∃ id m, parseValidMovie json r = .ok m ∧
      (c.call json h w r p).2.state = (c.service.UpdateMovie id m p.state).2) ∨
    (∃ id, (c.call json h w r p).2.state = (c.service.DeleteMovie id p.state).2) := by
  cases h with
  | GetMovies =>
    simp only [controller.call, controller.GetMovies]
    split
    · exact Or.inl rfl
    · rcases hs : c.service.GetMovies p.state with ⟨⟨movies, err⟩, st⟩
      cases err <;> exact Or.inr (Or.inl rfl)
  | GetMovie =>
    simp only [controller.call, controller.GetMovie]
    split
    · exact Or.inl rfl
    · rcases hp : strconv.ParseInt (mux.Vars r "id") 10 0 with ⟨id, perr⟩
      cases perr with
      | some e => exact Or.inl rfl
      | none =>
        rcases hs : c.service.GetMovie id p.state with ⟨⟨movie, err⟩, st⟩
        refine Or.inr (Or.inr (Or.inl ⟨id, ?_⟩))
        cases err <;> simp [hs, handleServerError, log.Println]
  | CreateMovie =>
    simp only [controller.call, controller.CreateMovie]
    split
    · exact Or.inl rfl
    · cases hb : parseValidMovie json r with
      | error e => exact Or.inl rfl
      | ok m =>
        rcases hs : c.service.CreateMovie m p.state with ⟨err, st⟩
        refine Or.inr (Or.inr (Or.inr (Or.inl ⟨m, rfl, ?_⟩)))
        cases err <;> simp [hs, handleServerError, log.Println]
  | UpdateMovie =>
    simp only [controller.call, controller.UpdateMovie]
    split
    · exact Or.inl rfl
    · rcases hp : strconv.ParseInt (mux.Vars r "id") 10 0 with ⟨id, perr⟩
      cases perr with
      | some e => exact Or.inl rfl
      | none =>
        cases hb : parseValidMovie json r with
        | error e => exact Or.inl rfl
        | ok m =>
          rcases hs : c.service.UpdateMovie id m p.state with ⟨err, st⟩
          refine Or.inr (Or.inr (Or.inr (Or.inr (Or.inl ⟨id, m, rfl, ?_⟩))))
          cases err <;> simp [hs, handleServerError, log.Println]
  | DeleteMovie =>
    simp only [controller.call, controller.DeleteMovie]
    split
    · exact Or.inl rfl
    · rcases hp : strconv.ParseInt (mux.Vars r "id") 10 0 with ⟨id, perr⟩
      cases perr with
      | some e => exact Or.inl rfl
      | none =>
        rcases hs : c.service.DeleteMovie id p.state with ⟨err, st⟩
        refine Or.inr (Or.inr (Or.inr (Or.inr (Or.inr ⟨id, ?_⟩))))
        cases err <;> simp [hs, handleServerError, log.Println]

/-- Each operation of the service on the movies table keeps every name non-empty, when
the Movie given to `CreateMovie` or `UpdateMovie` has a non-empty name. -/
theorem Store.service_keeps_names (st : Store) (h : ∀ row ∈ st.rows, row.Name ≠ "") :
    (∀ row ∈ (Store.service.GetMovies st).2.rows, row.Name ≠ "") ∧
    (∀ id, ∀ row ∈ (Store.service.GetMovie id st).2.rows, row.Name ≠ "") ∧
    (∀ m : Movie, m.Name ≠ "" →
      ∀ row ∈ (Store.service.CreateMovie m st).2.rows, row.Name ≠ "") ∧
    (∀ id, ∀ m : Movie, m.Name ≠ "" →
      ∀ row ∈ (Store.service.UpdateMovie id m st).2.rows, row.Name ≠ "") ∧
    (∀ id, ∀ row ∈ (Store.service.DeleteMovie id st).2.rows, row.Name ≠ "") := by
  refine ⟨?_, ?_, ?_, ?_, ?_⟩
  · rw [(Store.read_rows st 0).1]
    exact h
  · intro id
    rw [(Store.read_rows st id).2]
    exact h
  · intro m hm row hrow
    rw [Store.CreateMovie_eq] at hrow
    by_cases hid : st.hasID m.ID = true
    · rw [if_pos hid] at hrow
      exact h row hrow
    · rw [if_neg hid] at hrow
      rcases List.mem_append.1 hrow with hold | hnew
      · exact h row hold
      · rw [List.mem_singleton.1 hnew]
        exact hm
  · intro id m hm row hrow
    rw [Store.UpdateMovie_eq] at hrow
    by_cases hid : st.hasID id = true
    · rw [if_pos hid] at hrow
      obtain ⟨old, hold, hrow⟩ := List.mem_map.1 hrow
      by_cases hrid : old.ID = id
      · rw [if_pos hrid] at hrow
        rw [← hrow]
        exact hm
      · rw [if_neg hrid] at hrow
        rw [← hrow]
        exact h old hold
    · rw [if_neg hid] at hrow
      exact h row hrow
  · intro id row hrow
    rw [Store.DeleteMovie_eq] at hrow
    exact h row (List.mem_filter.1 hrow).1

/-- C14: starting from a movies table in which every row has a non-empty name, after
any sequence of requests handled by the five handlers, for any JSON decoder, every
row of the table has a non-empty name; and every Movie that `parseValidMovie` hands
to the create and update handlers has passed `Validate`. -/
theorem C14_names_stay_nonempty (json : json.Package)
    (reqs : List (MovieController.Handler × http.Request)) (p : Process Store)
    (h : ∀ row ∈ p.state.rows, row.Name ≠ "") :
    (∀ row ∈ ((NewMovieController Store.service).serveAll json reqs p).state.rows,
      row.Name ≠ "") ∧
    (∀ r m, parseValidMovie json r = .ok m → m.Validate = none) := by
  refine ⟨?_, fun r m hm => (parseValidMovie_ok json r m hm).1⟩
  induction reqs generalizing p with
  | nil => exact h
  | cons req rest ih =>
    obtain ⟨hd, r⟩ := req
    rw [controller.serveAll]
    apply ih
    obtain ⟨hlist, hget, hcreate, hupdate, hdelete⟩ := Store.service_keeps_names p.state h
    rcases controller.call_state (NewMovieController Store.service) json hd
      httptest.NewRecorder r p with hs | hs | ⟨id, hs⟩ | ⟨m, hm, hs⟩ | ⟨id, m, hm, hs⟩ | ⟨id, hs⟩
    · rw [hs]; exact h
    · rw [hs]; exact hlist
    · rw [hs]; exact hget id
    · rw [hs]; exact hcreate m (parseValidMovie_ok json r m hm).2
    · rw [hs]; exact hupdate id m (parseValidMovie_ok json r m hm).2
    · rw [hs]; exact hdelete id

/-- C14 at a concrete input: on a table that holds `(2, "Heat")`, a create of
`(1, "Alien")`, a create with a body without a name (answered 400), an update of id 1
to `Aliens`, a list and a delete of id 7 leave the rows `(2, "Heat")` and
`(1, "Aliens")`. -/
theorem C14_names_stay_nonempty_witness :
    (∀ row ∈ (Store.mk [⟨2, "Heat"⟩] []).rows, row.Name ≠ "") ∧
    ((NewMovieController Store.service).serveAll json.testPackage
      [(.CreateMovie, ⟨"POST", [], "\x7b\"id\":1,\"name\":\"Alien\"\x7d"⟩),
       (.CreateMovie, ⟨"POST", [], "\x7b\"ID\":1\x7d"⟩),
       (.UpdateMovie, ⟨"PUT", [("id", "1")], "\x7b\"name\":\"Aliens\"\x7d"⟩),
       (.GetMovies, ⟨"GET", [], ""⟩),
       (.DeleteMovie, ⟨"DELETE", [("id", "7")], ""⟩)]
      ⟨Store.mk [⟨2, "Heat"⟩] [], []⟩).state.rows = [⟨2, "Heat"⟩, ⟨1, "Aliens"⟩] ∧
    (∀ row ∈ ((NewMovieController Store.service).serveAll json.testPackage
      [(.CreateMovie, ⟨"POST", [], "\x7b\"id\":1,\"name\":\"Alien\"\x7d"⟩),
       (.CreateMovie, ⟨"POST", [], "\x7b\"ID\":1\x7d"⟩),
       (.UpdateMovie, ⟨"PUT", [("id", "1")], "\x7b\"name\":\"Aliens\"\x7d"⟩),
       (.GetMovies, ⟨"GET", [], ""⟩),
       (.DeleteMovie, ⟨"DELETE", [("id", "7")], ""⟩)]
      ⟨Store.mk [⟨2, "Heat"⟩] [], []⟩).state.rows, row.Name ≠ "") :=
  have h : ∀ row ∈ (Store.mk [⟨2, "Heat"⟩] []).rows, row.Name ≠ "" := by decide
  ⟨h, by decide, (C14_names_stay_nonempty json.testPackage _ ⟨Store.mk [⟨2, "Heat"⟩] [], []⟩ h).1⟩

/-- The elements of a path whose first slash comes after `l1`. -/
theorem path.split_append_slash (l1 l2 : List Char) (h : '/' ∉ l1) :
    path.split (l1 ++ '/' :: l2) = l1 :: path.split l2 := by
  induction l1 with
  | nil => simp [path.split]
  | cons c cs ih =>
    simp only [List.mem_cons, not_or] at h
    have hc : c ≠ '/' := fun hc => h.1 hc.symm
    rw [List.cons_append, path.split, if_neg hc, ih h.2]

/-- A path without a slash is one element. -/
theorem path.split_no_slash (l : List Char) (h : '/' ∉ l) : path.split l = [l] := by
  induction l with
  | nil => simp [path.split]
  | cons c cs ih =>
    simp only [List.mem_cons, not_or] at h
    have hc : c ≠ '/' := fun hc => h.1 hc.symm
    simp only [path.split, hc, if_false, ih h.2]

/-- The path `/movies/seg` is what `path.Clean` returns for it, when `seg` is an element
other than `.` and `..`. -/
theorem path.Clean_movies_id (cs : List Char) (hne : cs ≠ []) (hs : '/' ∉ cs)
    (hdot : cs ≠ ['.']) (hdots : cs ≠ ['.', '.']) :
    path.Clean ("/movies/".data ++ cs) = "/movies/".data ++ cs := by
  have e : "/movies/".data ++ cs = [] ++ '/' :: (['m', 'o', 'v', 'i', 'e', 's'] ++ '/' :: cs) :=
    rfl
  have hsplit : path.split ("/movies/".data ++ cs) = [[], ['m', 'o', 'v', 'i', 'e', 's'], cs] := by
    rw [e, path.split_append_slash [] _ (by simp),
      path.split_append_slash _ _ (by decide), path.split_no_slash cs hs]
  rw [path.Clean, hsplit]
  simp [path.Clean.step, hne, hdot, hdots]

/-- The path `/movies/seg` is in canonical form, when `seg` is an element other than `.`
and `..`: the router does not redirect it. -/
theorem mux.cleanPath_movies_id (seg : String) (hne : seg ≠ "") (hs : '/' ∉ seg.data)
    (hdot : seg ≠ ".") (hdots : seg ≠ "..") :
    mux.cleanPath ("/movies/" ++ seg) = "/movies/" ++ seg := by
  obtain ⟨cs⟩ := seg
  have hcs : cs ≠ [] := fun h => hne (by rw [h])
  have hd1 : cs ≠ ['.'] := fun h => hdot (by rw [h])
  have hd2 : cs ≠ ['.', '.'] := fun h => hdots (by rw [h])
  have hp : "/movies/" ++ String.mk cs = String.mk ("/movies/".data ++ cs) := rfl
  have hnonempty : String.mk ("/movies/".data ++ cs) ≠ "" := by
    intro h
    have hd : ("/movies/".data ++ cs) = [] := congrArg String.data h
    exact absurd hd (List.cons_ne_nil _ _)
  have hlast : ¬ ((String.mk ("/movies/".data ++ cs)).data.getLast? = some '/' ∧
      String.mk (path.Clean (String.mk ("/movies/".data ++ cs)).data) ≠ "/") := by
    intro h
    have h1 : ("/movies/".data ++ cs).getLast? = some '/' := h.1
    rw [List.getLast?_append_of_ne_nil _ hcs] at h1
    exact hs (List.mem_of_getLast?_eq_some h1)
  have hhead : (String.mk ("/movies/".data ++ cs)).data.head? = some '/' := rfl
  rw [hp, mux.cleanPath, if_neg hnonempty]
  simp only [hhead, if_true]
  rw [if_neg hlast]
  show String.mk (path.Clean ("/movies/".data ++ cs)) = _
  rw [path.Clean_movies_id cs hcs hs hd1 hd2]

/-- The methods of `setRouting` are in upper case, the prefix `/movies` ends in no
slash, and the templates of its routes are `/movies` and `/movies/\x7bid\x7d`. -/
theorem setRouting_templates :
    String.mk ("GET".data.map Char.toUpper) = "GET" ∧
    String.mk ("POST".data.map Char.toUpper) = "POST" ∧
    String.mk ("PUT".data.map Char.toUpper) = "PUT" ∧
    String.mk ("DELETE".data.map Char.toUpper) = "DELETE" ∧
    strings.TrimRightSlash "/movies" = "/movies" ∧
    "/movies" ++ "" = "/movies" ∧
    "/movies" ++ "/\x7bid\x7d" = "/movies/\x7bid\x7d" := by
  decide

/-- The match of the router of `setRouting` on the path `/movies` with a method that is
neither `GET` nor `POST`: no handler; `ErrMethodMismatch` in mux 1.8.0, and
`ErrNotFound` in mux 1.8.1, where the routes of `/movies/\x7bid\x7d` that follow clear
the mismatch on the prefix they inherit. -/
theorem setRouting_root_mismatch (lib : mux.Package) (method body : String)
    (h1 : method ≠ "GET") (h2 : method ≠ "POST") :
    (setRouting lib mux.NewRouter).Match lib ⟨method, "/movies", body⟩
        { Handler := none, Vars := [], MatchErr := none } =
      (false, { Handler := none, Vars := [],
                MatchErr := some (if lib.clearsMethodMismatch then .ErrNotFound
                  else .ErrMethodMismatch) }) := by
  obtain ⟨hU1, hU2, hU3, hU4, hT, hA1, hA2⟩ := setRouting_templates
  have hpre : "/movies".data.isPrefixOf "/movies".data = true := by decide
  have ht1 : mux.matchTemplate "/movies".data "/movies".data = some [] := by decide
  have ht2 : mux.matchTemplate "/movies/\x7bid\x7d".data "/movies".data = none := by decide
  obtain ⟨clears⟩ := lib
  cases clears <;>
    simp [setRouting, mux.NewRouter, mux.Router.PathPrefix, mux.Router.NewRoute,
      mux.Route.PathPrefix, mux.Route.addRegexpMatcher, mux.Route.Subrouter,
      mux.Router.HandleFunc, mux.Route.Path, mux.Route.HandlerFunc, mux.Route.Methods,
      mux.Router.matcher, mux.routeRegexp.matcher, mux.methodMatcher, mux.Router.Match,
      mux.Router.Match.loop, mux.Route.Match, mux.Route.Match.loop, mux.routeRegexp.Match,
      hU1, hU2, hU3, hU4, hT, hA1, hA2, hpre, ht1, ht2, h1, h2]

/-- The match of the router of `setRouting` on a path `/movies/seg` with a method that is
none of `GET`, `PUT` and `DELETE`: no handler, and `ErrMethodMismatch`, which the
last route leaves, in mux 1.8.0 and in mux 1.8.1. -/
theorem setRouting_id_mismatch (lib : mux.Package) (method body : String) (cs : List Char)
    (hne : cs ≠ []) (hs : '/' ∉ cs)
    (h1 : method ≠ "GET") (h2 : method ≠ "PUT") (h3 : method ≠ "DELETE") :
    (setRouting lib mux.NewRouter).Match lib ⟨method, "/movies/" ++ String.mk cs, body⟩
        { Handler := none, Vars := [], MatchErr := none } =
      (false, { Handler := none, Vars := [], MatchErr := some .ErrMethodMismatch }) := by
  obtain ⟨hU1, hU2, hU3, hU4, hT, hA1, hA2⟩ := setRouting_templates
  have ht1 : mux.matchTemplate ['/', 'm', 'o', 'v', 'i', 'e', 's']
      ('/' :: 'm' :: 'o' :: 'v' :: 'i' :: 'e' :: 's' :: '/' :: cs) = none := by
    simp [mux.matchTemplate]
  have ht2 : mux.matchTemplate ['/', 'm', 'o', 'v', 'i', 'e', 's', '/', '\x7b', 'i', 'd', '\x7d']
      ('/' :: 'm' :: 'o' :: 'v' :: 'i' :: 'e' :: 's' :: '/' :: cs) =
      some [("id", String.mk cs)] := by
    simp [mux.matchTemplate, hne, hs, List.dropWhile, List.takeWhile]
  obtain ⟨clears⟩ := lib
  cases clears <;>
    simp [setRouting, mux.NewRouter, mux.Router.PathPrefix, mux.Router.NewRoute,
      mux.Route.PathPrefix, mux.Route.addRegexpMatcher, mux.Route.Subrouter,
      mux.Router.HandleFunc, mux.Route.Path, mux.Route.HandlerFunc, mux.Route.Methods,
      mux.Router.matcher, mux.routeRegexp.matcher, mux.methodMatcher, mux.Router.Match,
      mux.Router.Match.loop, mux.Route.Match, mux.Route.Match.loop, mux.routeRegexp.Match,
      hU1, hU2, hU3, hU4, hT, hA1, hA2, ht1, ht2, h1, h2, h3]
/-- C16, as stated, fails at `PUT /movies`, a bound path with a method that is not bound
for it. Through the router of `setRouting`, over the mock service, the response is
status 405 with an empty body in mux 1.8.0 and status 404 with the body of
`http.NotFound` in mux 1.8.1; in both, nothing is logged and the service is not
called: no handler ran. The handler `GetMovies`, called with the same request,
answers from its own method check with the body `Method not allowed` and logs a
line; in both releases the response of the router differs from the response of each
of the five handlers. -/
theorem C16_delegation_counterexample :
    (InitializeMoviesPipeline mux.v1_8_0 (mockService mock.succeeding) json.testPackage
        httptest.NewRecorder ⟨"PUT", "/movies", ""⟩ ⟨[], []⟩).1 =
      { Code := 405, wroteHeader := true, Body := "" } ∧
    (InitializeMoviesPipeline mux.v1_8_1 (mockService mock.succeeding) json.testPackage
        httptest.NewRecorder ⟨"PUT", "/movies", ""⟩ ⟨[], []⟩).1 =
      { Code := 404, wroteHeader := true, Body := "404 page not found\n" } ∧
    (∀ lib : mux.Package,
      (InitializeMoviesPipeline lib (mockService mock.succeeding) json.testPackage
        httptest.NewRecorder ⟨"PUT", "/movies", ""⟩ ⟨[], []⟩).2.log = [] ∧
      (InitializeMoviesPipeline lib (mockService mock.succeeding) json.testPackage
        httptest.NewRecorder ⟨"PUT", "/movies", ""⟩ ⟨[], []⟩).2.state = []) ∧
    ((NewMovieController (mockService mock.succeeding)).GetMovies json.testPackage
        httptest.NewRecorder ⟨"PUT", [], ""⟩ ⟨[], []⟩).1 =
      { Code := 405, wroteHeader := true, Body := "Method not allowed\n" } ∧
    ((NewMovieController (mockService mock.succeeding)).GetMovies json.testPackage
        httptest.NewRecorder ⟨"PUT", [], ""⟩ ⟨[], []⟩).2.log =
      [[.string "[405 - Method Not Allowed] ", .string "PUT method to GetMovies"]] ∧
    (∀ (lib : mux.Package) (h : MovieController.Handler),
      (InitializeMoviesPipeline lib (mockService mock.succeeding) json.testPackage
        httptest.NewRecorder ⟨"PUT", "/movies", ""⟩ ⟨[], []⟩).1 ≠
      ((NewMovieController (mockService mock.succeeding)).call json.testPackage h
        httptest.NewRecorder ⟨"PUT", [], ""⟩ ⟨[], []⟩).1) := by
  refine ⟨by decide, by decide, ?_, by decide, by decide, ?_⟩
  · intro lib
    obtain ⟨clears⟩ := lib
    cases clears <;> decide
  · intro lib h
    obtain ⟨clears⟩ := lib
    cases clears <;> cases h <;> decide

/-- C16, amended: a request on a bound path whose method is not bound for that path is
not delegated to a movie handler; the routing layer answers it. In mux 1.8.0 and in
mux 1.8.1, for every service, the router of `setRouting` leaves the state behind the
service and the log as they were, so no handler is called, and the response is its
own, without the message of a handler: on `/movies` with a method other than `GET`
and `POST`, status 405 with an empty body in mux 1.8.0 and status 404 in mux 1.8.1;
on `/movies/seg`, for a non-empty `seg` without a slash other than `.` and `..`,
with a method other than `GET`, `PUT` and `DELETE`, status 405 with an empty body;
on `/movies/.` and `/movies/..`, for any method, the redirect to the canonical path
(status 301). -/
theorem C16_method_mismatch_answered_by_router {σ : Type} (lib : mux.Package)
    (s : MovieService σ) (json : json.Package) (method body : String) (p : Process σ) :
    (method ≠ "GET" → method ≠ "POST" →
      InitializeMoviesPipeline lib s json httptest.NewRecorder ⟨method, "/movies", body⟩ p =
        (if lib.clearsMethodMismatch then
           { Code := 404, wroteHeader := true, Body := "404 page not found\n" }
         else
           { Code := 405, wroteHeader := true, Body := "" }, p)) ∧
    (∀ seg : String, seg ≠ "" → '/' ∉ seg.data → seg ≠ "." → seg ≠ ".." →
      method ≠ "GET" → method ≠ "PUT" → method ≠ "DELETE" →
      InitializeMoviesPipeline lib s json httptest.NewRecorder
        ⟨method, "/movies/" ++ seg, body⟩ p =
        ({ Code := 405, wroteHeader := true, Body := "" }, p)) ∧
    InitializeMoviesPipeline lib s json httptest.NewRecorder ⟨method, "/movies/.", body⟩ p =
      ({ Code := 301, wroteHeader := true, Body := "" }, p) ∧
    InitializeMoviesPipeline lib s json httptest.NewRecorder ⟨method, "/movies/..", body⟩ p =
      ({ Code := 301, wroteHeader := true, Body := "" }, p) := by
  refine ⟨?_, ?_, ?_, ?_⟩
  · intro h1 h2
    have hclean : ¬ (mux.cleanPath "/movies" ≠ "/movies") := by decide
    simp only [InitializeMoviesPipeline, mux.Router.ServeHTTP]
    rw [if_neg hclean, setRouting_root_mismatch lib method body h1 h2]
    obtain ⟨clears⟩ := lib
    cases clears <;> rfl
  · intro seg hne hs hdot hdots h1 h2 h3
    have hclean : ¬ (mux.cleanPath ("/movies/" ++ seg) ≠ "/movies/" ++ seg) :=
      not_not.mpr (mux.cleanPath_movies_id seg hne hs hdot hdots)
    obtain ⟨cs⟩ := seg
    have hcs : cs ≠ [] := fun h => hne (by rw [h])
    simp only [InitializeMoviesPipeline, mux.Router.ServeHTTP]
    rw [if_neg hclean, setRouting_id_mismatch lib method body cs hcs hs h1 h2 h3]
    rfl
  · have hclean : mux.cleanPath "/movies/." ≠ "/movies/." := by decide
    simp only [InitializeMoviesPipeline, mux.Router.ServeHTTP]
    rw [if_pos hclean]
    rfl
  · have hclean : mux.cleanPath "/movies/.." ≠ "/movies/.." := by decide
    simp only [InitializeMoviesPipeline, mux.Router.ServeHTTP]
    rw [if_pos hclean]
    rfl

/-- C16 at concrete inputs, over the service on a movies table that holds `(1, "Alien")`.
In mux 1.8.0, `PUT /movies`, `POST /movies/1` and `PATCH /movies` are answered 405
with an empty body; in mux 1.8.1, `PUT /movies` and `PATCH /movies` are answered 404
and `POST /movies/1` is answered 405 with an empty body. All leave the table and its
statement log untouched. `GET /movies/1`, whose method is bound, is handed to
`GetMovie` in both. -/
theorem C16_method_mismatch_answered_by_router_witness :
    ("PUT" ≠ "GET" ∧ "PUT" ≠ "POST" ∧ "POST" ≠ "GET" ∧ "POST" ≠ "PUT" ∧ "POST" ≠ "DELETE" ∧
      "PATCH" ≠ "GET" ∧ "PATCH" ≠ "POST" ∧ "1" ≠ "" ∧ '/' ∉ "1".data ∧ "1" ≠ "." ∧
      "1" ≠ "..") ∧
    InitializeMoviesPipeline mux.v1_8_0 Store.service json.testPackage httptest.NewRecorder
        ⟨"PUT", "/movies", ""⟩ ⟨Store.mk [⟨1, "Alien"⟩] [], []⟩ =
      ({ Code := 405, wroteHeader := true, Body := "" }, ⟨Store.mk [⟨1, "Alien"⟩] [], []⟩) ∧
    InitializeMoviesPipeline mux.v1_8_0 Store.service json.testPackage httptest.NewRecorder
        ⟨"POST", "/movies/" ++ "1", ""⟩ ⟨Store.mk [⟨1, "Alien"⟩] [], []⟩ =
      ({ Code := 405, wroteHeader := true, Body := "" }, ⟨Store.mk [⟨1, "Alien"⟩] [], []⟩) ∧
    InitializeMoviesPipeline mux.v1_8_0 Store.service json.testPackage httptest.NewRecorder
        ⟨"PATCH", "/movies", ""⟩ ⟨Store.mk [⟨1, "Alien"⟩] [], []⟩ =
      ({ Code := 405, wroteHeader := true, Body := "" }, ⟨Store.mk [⟨1, "Alien"⟩] [], []⟩) ∧
    InitializeMoviesPipeline mux.v1_8_1 Store.service json.testPackage httptest.NewRecorder
        ⟨"PUT", "/movies", ""⟩ ⟨Store.mk [⟨1, "Alien"⟩] [], []⟩ =
      ({ Code := 404, wroteHeader := true, Body := "404 page not found\n" },
        ⟨Store.mk [⟨1, "Alien"⟩] [], []⟩) ∧
    InitializeMoviesPipeline mux.v1_8_1 Store.service json.testPackage httptest.NewRecorder
        ⟨"POST", "/movies/" ++ "1", ""⟩ ⟨Store.mk [⟨1, "Alien"⟩] [], []⟩ =
      ({ Code := 405, wroteHeader := true, Body := "" }, ⟨Store.mk [⟨1, "Alien"⟩] [], []⟩) ∧
    InitializeMoviesPipeline mux.v1_8_1 Store.service json.testPackage httptest.NewRecorder
        ⟨"PATCH", "/movies", ""⟩ ⟨Store.mk [⟨1, "Alien"⟩] [], []⟩ =
      ({ Code := 404, wroteHeader := true, Body := "404 page not found\n" },
        ⟨Store.mk [⟨1, "Alien"⟩] [], []⟩) ∧
    (InitializeMoviesPipeline mux.v1_8_0 Store.service json.testPackage httptest.NewRecorder
        ⟨"GET", "/movies/1", ""⟩ ⟨Store.mk [⟨1, "Alien"⟩] [], []⟩).1 =
      { Code := 200, wroteHeader := true, Body := "\x7b\"id\":1,\"name\":\"Alien\"\x7d" } ∧
    (InitializeMoviesPipeline mux.v1_8_1 Store.service json.testPackage httptest.NewRecorder
        ⟨"GET", "/movies/1", ""⟩ ⟨Store.mk [⟨1, "Alien"⟩] [], []⟩).1 =
      { Code := 200, wroteHeader := true, Body := "\x7b\"id\":1,\"name\":\"Alien\"\x7d" } :=
  ⟨by decide,
    (C16_method_mismatch_answered_by_router mux.v1_8_0 Store.service json.testPackage "PUT" ""
      ⟨Store.mk [⟨1, "Alien"⟩] [], []⟩).1 (by decide) (by decide),
    (C16_method_mismatch_answered_by_router mux.v1_8_0 Store.service json.testPackage "POST" ""
      ⟨Store.mk [⟨1, "Alien"⟩] [], []⟩).2.1 "1" (by decide) (by decide) (by decide)
      (by decide) (by decide) (by decide) (by decide),
    (C16_method_mismatch_answered_by_router mux.v1_8_0 Store.service json.testPackage "PATCH" ""
      ⟨Store.mk [⟨1, "Alien"⟩] [], []⟩).1 (by decide) (by decide),
    (C16_method_mismatch_answered_by_router mux.v1_8_1 Store.service json.testPackage "PUT" ""
      ⟨Store.mk [⟨1, "Alien"⟩] [], []⟩).1 (by decide) (by decide),
    (C16_method_mismatch_answered_by_router mux.v1_8_1 Store.service json.testPackage "POST" ""
      ⟨Store.mk [⟨1, "Alien"⟩] [], []⟩).2.1 "1" (by decide) (by decide) (by decide)
      (by decide) (by decide) (by decide) (by decide),
    (C16_method_mismatch_answered_by_router mux.v1_8_1 Store.service json.testPackage "PATCH" ""
      ⟨Store.mk [⟨1, "Alien"⟩] [], []⟩).1 (by decide) (by decide),
    by decide, by decide⟩
